import Mathlib

/-!
Shallow embedding of the Test-Analytics-Platform core write path:
the SQLite-backed persistence layer (orgDB, projectDB, tokenDB, testRunDB),
the service layer (orgService, projectService, tokenService, ingestionService)
and the small part of the route layer that shapes storage conflicts.

State is passed explicitly: every storage operation takes the current
`DBState` and returns its result together with the (possibly updated) state.
JavaScript `Error` values are modelled by `JSErr`: either one of the
application's `AppError` subclasses, or a plain `Error` carrying an optional
`code` property, which is how both the sqlite3 driver errors and the DB
layer's translated errors are represented in the source.
-/

namespace TestAnalytics

/-- Decidable equality on `Except`, so that concrete outcomes of the
embedded operations can be settled by `decide`. -/
instance exceptDecEq {ε α : Type} [DecidableEq ε] [DecidableEq α] :
    DecidableEq (Except ε α) :=
  fun x y =>
    match x, y with
    | .ok a, .ok b =>
        if h : a = b then .isTrue (by rw [h]) else .isFalse (fun hc => h (Except.ok.inj hc))
    | .error a, .error b =>
        if h : a = b then .isTrue (by rw [h]) else .isFalse (fun hc => h (Except.error.inj hc))
    | .ok _, .error _ => .isFalse (fun hc => Except.noConfusion hc)
    | .error _, .ok _ => .isFalse (fun hc => Except.noConfusion hc)

/-- Model of `String.prototype.includes`: `sub` occurs contiguously in `s`. -/
def listStartsWith : List Char → List Char → Bool
  | [], _ => true
  | _ :: _, [] => false
  | a :: as, b :: bs => a == b && listStartsWith as bs

/-- Scan of the haystack for the needle, used by `strIncludes`. -/
def listContainsSeq : List Char → List Char → Bool
  | hay, needle =>
    match hay with
    | [] => needle.isEmpty
    | _ :: t => listStartsWith needle hay || listContainsSeq t needle

/-- Model of JavaScript `s.includes(sub)`. -/
def strIncludes (s sub : String) : Bool :=
  listContainsSeq s.toList sub.toList

/-- Model of JavaScript `String.prototype.trim`: strip leading and
trailing whitespace. -/
def jsTrim (s : String) : String :=
  String.mk (((s.toList.dropWhile Char.isWhitespace).reverse.dropWhile
    Char.isWhitespace).reverse)

/-- The closed set of `AppError` subclasses from `src/utils/errors.js`. -/
inductive ErrKind where
  | validation
  | unauthorized
  | notFound
  | conflict
  deriving Repr, DecidableEq

/-- A JavaScript error value as the source observes it: an `AppError`
subclass, or a plain `Error` with an optional `code` property (sqlite3
driver errors carry `code = "SQLITE_CONSTRAINT"`; the DB layer's translated
errors carry `"UNIQUE_VIOLATION"` / `"FOREIGN_KEY_VIOLATION"`). -/
inductive JSErr where
  | appError (kind : ErrKind) (msg : String)
  | plainError (code : Option String) (msg : String)
  deriving Repr, DecidableEq

/-- The `.code` property: `undefined` (`none`) on `AppError` instances. -/
def JSErr.code : JSErr → Option String
  | .appError _ _ => none
  | .plainError c _ => c

/-- The `.message` property of an error. -/
def JSErr.message : JSErr → String
  | .appError _ m => m
  | .plainError _ m => m

/-- Row of the `organizations` table. -/
structure Organization where
  id : String
  name : String
  created_at : String
  deriving Repr, DecidableEq

/-- Row of the `projects` table. -/
structure Project where
  id : String
  organization_id : String
  name : String
  created_at : String
  deriving Repr, DecidableEq

/-- Row of the `api_tokens` table. -/
structure ApiToken where
  id : String
  project_id : String
  token_hash : String
  created_at : String
  deriving Repr, DecidableEq

/-- Row of the `test_runs` table.  `duration_ms` is a JavaScript number,
modelled as a rational (every finite JS float is rational). -/
structure TestRun where
  id : String
  project_id : String
  run_id : String
  status : String
  duration_ms : Rat
  timestamp : String
  created_at : String
  deriving Repr, DecidableEq

/-- The four relations of `schema.sql`. -/
structure DBState where
  organizations : List Organization
  projects : List Project
  api_tokens : List ApiToken
  test_runs : List TestRun
  deriving Repr, DecidableEq

/-- A raw sqlite3 driver constraint error: `code` is `SQLITE_CONSTRAINT`
and the message names the violated constraint. -/
def sqliteErr (msg : String) : JSErr :=
  .plainError (some "SQLITE_CONSTRAINT") msg

/-- Modelled storage engine: `INSERT INTO organizations`, enforcing the
primary key on `id` and `UNIQUE` on `name` from `schema.sql`. -/
def insertOrganization (st : DBState) (row : Organization) : Except JSErr DBState :=
  if st.organizations.any (fun o => o.id == row.id) then
    .error (sqliteErr "SQLITE_CONSTRAINT: UNIQUE constraint failed: organizations.id")
  else if st.organizations.any (fun o => o.name == row.name) then
    .error (sqliteErr "SQLITE_CONSTRAINT: UNIQUE constraint failed: organizations.name")
  else
    .ok { st with organizations := st.organizations ++ [row] }

/-- Modelled storage engine: `INSERT INTO projects`, enforcing the primary
key, `UNIQUE(organization_id, name)` and the foreign key to
`organizations` (`PRAGMA foreign_keys = ON` is set in `database.js`). -/
def insertProject (st : DBState) (row : Project) : Except JSErr DBState :=
  if st.projects.any (fun p => p.id == row.id) then
    .error (sqliteErr "SQLITE_CONSTRAINT: UNIQUE constraint failed: projects.id")
  else if st.projects.any
      (fun p => p.organization_id == row.organization_id && p.name == row.name) then
    .error (sqliteErr "SQLITE_CONSTRAINT: UNIQUE constraint failed: projects.organization_id, projects.name")
  else if !(st.organizations.any (fun o => o.id == row.organization_id)) then
    .error (sqliteErr "SQLITE_CONSTRAINT: FOREIGN KEY constraint failed")
  else
    .ok { st with projects := st.projects ++ [row] }

/-- Modelled storage engine: `INSERT INTO api_tokens`, enforcing the primary
key, `UNIQUE` on `token_hash` and the foreign key to `projects`. -/
def insertApiToken (st : DBState) (row : ApiToken) : Except JSErr DBState :=
  if st.api_tokens.any (fun t => t.id == row.id) then
    .error (sqliteErr "SQLITE_CONSTRAINT: UNIQUE constraint failed: api_tokens.id")
  else if st.api_tokens.any (fun t => t.token_hash == row.token_hash) then
    .error (sqliteErr "SQLITE_CONSTRAINT: UNIQUE constraint failed: api_tokens.token_hash")
  else if !(st.projects.any (fun p => p.id == row.project_id)) then
    .error (sqliteErr "SQLITE_CONSTRAINT: FOREIGN KEY constraint failed")
  else
    .ok { st with api_tokens := st.api_tokens ++ [row] }

/-- Modelled storage engine: `INSERT INTO test_runs`, enforcing the `CHECK`
constraints on `status` and `duration_ms`, the primary key,
`UNIQUE(project_id, run_id)` (the idempotency constraint) and the foreign
key to `projects`. -/
def insertTestRun (st : DBState) (row : TestRun) : Except JSErr DBState :=
  if ¬ (row.status = "passed" ∨ row.status = "failed") then
    .error (sqliteErr "SQLITE_CONSTRAINT: CHECK constraint failed: status")
  else if row.duration_ms < 0 then
    .error (sqliteErr "SQLITE_CONSTRAINT: CHECK constraint failed: duration_ms")
  else if st.test_runs.any (fun r => r.id == row.id) then
    .error (sqliteErr "SQLITE_CONSTRAINT: UNIQUE constraint failed: test_runs.id")
  else if st.test_runs.any (fun r => r.project_id == row.project_id && r.run_id == row.run_id) then
    .error (sqliteErr "SQLITE_CONSTRAINT: UNIQUE constraint failed: test_runs.project_id, test_runs.run_id")
  else if !(st.projects.any (fun p => p.id == row.project_id)) then
    .error (sqliteErr "SQLITE_CONSTRAINT: FOREIGN KEY constraint failed")
  else
    .ok { st with test_runs := st.test_runs ++ [row] }

/-- `orgDB.create` (`src/db/orgDB.js`): inserts the row and rejects any
driver error unchanged — it performs no translation of constraint errors.
The generated `uuidv4()` id and `new Date().toISOString()` value are passed
in as `id` and `createdAt`. -/
def orgDB.create (st : DBState) (name id createdAt : String) :
    Except JSErr Organization × DBState :=
  let row : Organization := ⟨id, name, createdAt⟩
  match insertOrganization st row with
  | .error err => (.error err, st)
  | .ok st' => (.ok row, st')

/-- `orgDB.findById`. -/
def orgDB.findById (st : DBState) (id : String) : Option Organization :=
  st.organizations.find? (fun o => o.id == id)

/-- `projectDB.create` (`src/db/projectDB.js`): translates a foreign-key
driver error into a plain error with `code = "FOREIGN_KEY_VIOLATION"`;
every other driver error (including the `UNIQUE(organization_id, name)`
violation) is rejected unchanged. -/
def projectDB.create (st : DBState) (organizationId name id createdAt : String) :
    Except JSErr Project × DBState :=
  let row : Project := ⟨id, organizationId, name, createdAt⟩
  match insertProject st row with
  | .error err =>
      if strIncludes err.message "FOREIGN KEY constraint failed" then
        (.error (.plainError (some "FOREIGN_KEY_VIOLATION")
          ("Organization with id " ++ organizationId ++ " does not exist")), st)
      else (.error err, st)
  | .ok st' => (.ok row, st')

/-- `projectDB.findById`. -/
def projectDB.findById (st : DBState) (id : String) : Option Project :=
  st.projects.find? (fun p => p.id == id)

/-- `tokenDB.create` (`src/db/tokenDB.js`): translates a unique-constraint
driver error into `code = "UNIQUE_VIOLATION"` and a foreign-key error into
`code = "FOREIGN_KEY_VIOLATION"`. -/
def tokenDB.create (st : DBState) (projectId tokenHash id createdAt : String) :
    Except JSErr ApiToken × DBState :=
  let row : ApiToken := ⟨id, projectId, tokenHash, createdAt⟩
  match insertApiToken st row with
  | .error err =>
      if strIncludes err.message "UNIQUE constraint failed" then
        (.error (.plainError (some "UNIQUE_VIOLATION") "Token hash already exists"), st)
      else if strIncludes err.message "FOREIGN KEY constraint failed" then
        (.error (.plainError (some "FOREIGN_KEY_VIOLATION")
          ("Project with id " ++ projectId ++ " does not exist")), st)
      else (.error err, st)
  | .ok st' => (.ok row, st')

/-- `tokenDB.findProjectByTokenHash`: the `project_id` of the first row
whose `token_hash` matches, or `null`. -/
def tokenDB.findProjectByTokenHash (st : DBState) (tokenHash : String) : Option String :=
  (st.api_tokens.find? (fun t => t.token_hash == tokenHash)).map (fun t => t.project_id)

/-- `testRunDB.create` (`src/db/testRunDB.js`): translates a unique-constraint
driver error into `code = "UNIQUE_VIOLATION"` and a foreign-key error into
`code = "FOREIGN_KEY_VIOLATION"`; other driver errors are rejected unchanged. -/
def testRunDB.create (st : DBState) (projectId runId status : String)
    (durationMs : Rat) (timestamp id createdAt : String) :
    Except JSErr TestRun × DBState :=
  let row : TestRun := ⟨id, projectId, runId, status, durationMs, timestamp, createdAt⟩
  match insertTestRun st row with
  | .error err =>
      if strIncludes err.message "UNIQUE constraint failed" then
        (.error (.plainError (some "UNIQUE_VIOLATION")
          ("Test run with run_id " ++ runId ++ " already exists for project " ++ projectId)), st)
      else if strIncludes err.message "FOREIGN KEY constraint failed" then
        (.error (.plainError (some "FOREIGN_KEY_VIOLATION")
          ("Project with id " ++ projectId ++ " does not exist")), st)
      else (.error err, st)
  | .ok st' => (.ok row, st')

/-- `testRunDB.findByRunId`: the first `test_runs` row for
`(project_id, run_id)`, or `null`. -/
def testRunDB.findByRunId (st : DBState) (projectId runId : String) : Option TestRun :=
  st.test_runs.find? (fun r => r.project_id == projectId && r.run_id == runId)

/-- Numeric value of a decimal digit character. -/
def digitVal (c : Char) : Nat := c.toNat - '0'.toNat

/-- Leap-year rule of the proleptic Gregorian calendar used by JS `Date`. -/
def isLeapYear (y : Nat) : Bool :=
  (y % 4 == 0 && y % 100 != 0) || y % 400 == 0

/-- Number of days in a month of a given year. -/
def daysInMonth (y m : Nat) : Nat :=
  if m == 2 then (if isLeapYear y then 29 else 28)
  else if m == 4 || m == 6 || m == 9 || m == 11 then 30
  else 31

/-- A parsed UTC instant, kept as calendar components (the information
`Date.prototype.toISOString` reads back out of the time value). -/
structure JSDateTime where
  year : Nat
  month : Nat
  day : Nat
  hour : Nat
  minute : Nat
  second : Nat
  millisecond : Nat
  deriving Repr, DecidableEq

/-- Range-check the parsed components, as `new Date(isoString)` yields an
Invalid Date (NaN time value) for out-of-range components. -/
def mkJSDateTime (y mo d h mi s ms : Nat) : Option JSDateTime :=
  if 1 ≤ mo ∧ mo ≤ 12 ∧ 1 ≤ d ∧ d ≤ daysInMonth y mo ∧ h ≤ 23 ∧ mi ≤ 59 ∧ s ≤ 59 then
    some ⟨y, mo, d, h, mi, s, ms⟩
  else none

/-- Modelled host function: `new Date(string)` restricted to the UTC
(`Z`-suffixed) ISO forms `YYYY-MM-DDTHH:MM:SS.sssZ` and
`YYYY-MM-DDTHH:MM:SSZ`.  The real parser accepts further shapes (offsets,
date-only, …), but every such string serializes back differently under
`toISOString`, so the restriction does not change the round-trip check
`isValidISO8601` below. -/
def jsDateParse (s : String) : Option JSDateTime :=
  match s.toList with
  | [y1, y2, y3, y4, '-', o1, o2, '-', d1, d2, 'T',
     h1, h2, ':', n1, n2, ':', c1, c2, '.', f1, f2, f3, 'Z'] =>
      if [y1, y2, y3, y4, o1, o2, d1, d2, h1, h2, n1, n2, c1, c2, f1, f2, f3].all Char.isDigit then
        mkJSDateTime
          (1000 * digitVal y1 + 100 * digitVal y2 + 10 * digitVal y3 + digitVal y4)
          (10 * digitVal o1 + digitVal o2)
          (10 * digitVal d1 + digitVal d2)
          (10 * digitVal h1 + digitVal h2)
          (10 * digitVal n1 + digitVal n2)
          (10 * digitVal c1 + digitVal c2)
          (100 * digitVal f1 + 10 * digitVal f2 + digitVal f3)
      else none
  | [y1, y2, y3, y4, '-', o1, o2, '-', d1, d2, 'T',
     h1, h2, ':', n1, n2, ':', c1, c2, 'Z'] =>
      if [y1, y2, y3, y4, o1, o2, d1, d2, h1, h2, n1, n2, c1, c2].all Char.isDigit then
        mkJSDateTime
          (1000 * digitVal y1 + 100 * digitVal y2 + 10 * digitVal y3 + digitVal y4)
          (10 * digitVal o1 + digitVal o2)
          (10 * digitVal d1 + digitVal d2)
          (10 * digitVal h1 + digitVal h2)
          (10 * digitVal n1 + digitVal n2)
          (10 * digitVal c1 + digitVal c2)
          0
      else none
  | _ => none

/-- Zero-padded decimal rendering of width `w`. -/
def padNat (w n : Nat) : String :=
  let s := toString n
  (String.mk (List.replicate (w - s.length) '0')) ++ s

/-- Modelled host function: `Date.prototype.toISOString`, which always
emits the canonical `YYYY-MM-DDTHH:MM:SS.sssZ` form. -/
def jsToISOString (d : JSDateTime) : String :=
  padNat 4 d.year ++ "-" ++ padNat 2 d.month ++ "-" ++ padNat 2 d.day ++ "T" ++
  padNat 2 d.hour ++ ":" ++ padNat 2 d.minute ++ ":" ++ padNat 2 d.second ++ "." ++
  padNat 3 d.millisecond ++ "Z"

/-- `isValidISO8601` (`src/services/ingestionService.js`): the string must
parse to a real instant and the parsed instant must serialize back to the
exact input (`date.toISOString() === timestamp`). -/
def isValidISO8601 (timestamp : String) : Bool :=
  match jsDateParse timestamp with
  | none => false
  | some d => jsToISOString d == timestamp

/-- Hexadecimal digit (either case), as in the uuid package's regex. -/
def isHexChar (c : Char) : Bool :=
  c.isDigit || ('a' ≤ c && c ≤ 'f') || ('A' ≤ c && c ≤ 'F')

/-- Modelled host function: `validate` from the `uuid` npm package — the
nil UUID, or the 8-4-4-4-12 hex shape with version digit 1–5 and variant
nibble in `[89abAB]`, case-insensitive. -/
def uuidValidate (s : String) : Bool :=
  s == "00000000-0000-0000-0000-000000000000" ||
  match s.toList with
  | a1 :: a2 :: a3 :: a4 :: a5 :: a6 :: a7 :: a8 :: '-' :: b1 :: b2 :: b3 :: b4 :: '-' ::
    v :: c1 :: c2 :: c3 :: '-' :: r :: d1 :: d2 :: d3 :: '-' ::
    e1 :: e2 :: e3 :: e4 :: e5 :: e6 :: e7 :: e8 :: e9 :: e10 :: e11 :: e12 :: [] =>
      [a1, a2, a3, a4, a5, a6, a7, a8, b1, b2, b3, b4,
       c1, c2, c3, d1, d2, d3,
       e1, e2, e3, e4, e5, e6, e7, e8, e9, e10, e11, e12].all isHexChar &&
      ['1', '2', '3', '4', '5'].contains v &&
      ['8', '9', 'a', 'b', 'A', 'B'].contains r
  | _ => false

/-- `orgService.createOrganization` (`src/services/orgService.js`, variant
with conflict handling): rejects missing/empty/whitespace-only names as a
`ValidationError`, inserts `name.trim()`, and converts a storage error
whose `code` is `"UNIQUE_VIOLATION"` into a `ConflictError`; every other
storage error is rethrown unchanged. -/
def orgService.createOrganization (st : DBState) (name id createdAt : String) :
    Except JSErr Organization × DBState :=
  if name = "" ∨ jsTrim name = "" then
    (.error (.appError .validation
      "Organization name is required and must be a non-empty string"), st)
  else
    match orgDB.create st (jsTrim name) id createdAt with
    | (.ok org, st') => (.ok org, st')
    | (.error e, st') =>
        if e.code == some "UNIQUE_VIOLATION" then
          (.error (.appError .conflict e.message), st')
        else (.error e, st')

/-- The `POST /orgs` handler body after express-validator has accepted the
payload (`src/routes/orgs.js`): calls the service and converts a service
error that looks like a sqlite unique violation (`code ===
'SQLITE_CONSTRAINT'` or message containing `'UNIQUE'`) into a
`ConflictError`. -/
def orgsRoute.post (st : DBState) (name id createdAt : String) :
    Except JSErr Organization × DBState :=
  match orgService.createOrganization st name id createdAt with
  | (.ok org, st') => (.ok org, st')
  | (.error serviceError, st') =>
      if serviceError.code == some "SQLITE_CONSTRAINT" ||
          strIncludes serviceError.message "UNIQUE" then
        (.error (.appError .conflict
          ("Organization with name \"" ++ name ++ "\" already exists")), st')
      else (.error serviceError, st')

/-- `projectService.createProject` (`src/services/projectService.js`,
variant with conflict handling): validates the name and the organization
id, confirms the organization exists before attempting the write
(`NotFoundError` otherwise), inserts `name.trim()`, and converts a storage
error with `code = "UNIQUE_VIOLATION"` into a `ConflictError`. -/
def projectService.createProject (st : DBState) (organizationId name id createdAt : String) :
    Except JSErr Project × DBState :=
  if name = "" ∨ jsTrim name = "" then
    (.error (.appError .validation
      "Project name is required and must be a non-empty string"), st)
  else if organizationId = "" then
    (.error (.appError .validation
      "Organization ID is required and must be a string"), st)
  else
    match orgDB.findById st organizationId with
    | none =>
        (.error (.appError .notFound
          ("Organization with id " ++ organizationId ++ " does not exist")), st)
    | some _ =>
        match projectDB.create st organizationId (jsTrim name) id createdAt with
        | (.ok p, st') => (.ok p, st')
        | (.error err, st') =>
            if err.code == some "UNIQUE_VIOLATION" then
              (.error (.appError .conflict err.message), st')
            else (.error err, st')

/-- `generateToken` (`src/utils/crypto.js`): a static `ta_live_` prefix
followed by the hex encoding of 32 random bytes; the randomness is passed
in as the 64-character hex string `randomHex`. -/
def generateToken (randomHex : String) : String :=
  "ta_live_" ++ randomHex

/-- `hashToken` (`src/utils/crypto.js`): the hex-encoded SHA-256 digest of
the token.  The digest itself is a host primitive
(`crypto.createHash('sha256')`), passed in as `sha256hex`; its output is
always a 64-character hex string. -/
def hashToken (sha256hex : String → String) (token : String) : String :=
  sha256hex token

/-- Result shape of `tokenService.createToken`. -/
structure TokenResult where
  token : String
  project_id : String
  warning : String
  deriving Repr, DecidableEq

/-- `tokenService.createToken` (`src/services/tokenService.js`): validates
the project id, confirms the project exists before the write
(`NotFoundError` otherwise), generates the raw token, stores only its
hash, and returns the raw token with a one-time-display warning. -/
def tokenService.createToken (sha256hex : String → String) (st : DBState)
    (projectId randomHex id createdAt : String) :
    Except JSErr TokenResult × DBState :=
  if projectId = "" then
    (.error (.appError .validation "Project ID is required and must be a string"), st)
  else
    match projectDB.findById st projectId with
    | none =>
        (.error (.appError .notFound
          ("Project with id " ++ projectId ++ " does not exist")), st)
    | some _ =>
        let rawToken := generateToken randomHex
        let tokenHash := hashToken sha256hex rawToken
        match tokenDB.create st projectId tokenHash id createdAt with
        | (.ok _, st') =>
            (.ok ⟨rawToken, projectId,
              "Store this token securely. It will not be shown again."⟩, st')
        | (.error e, st') => (.error e, st')

/-- `tokenService.validateToken`: returns `null` for missing input,
otherwise hashes the presented token and looks the hash up; never throws. -/
def tokenService.validateToken (sha256hex : String → String) (st : DBState)
    (rawToken : String) : Option String :=
  if rawToken = "" then none
  else tokenDB.findProjectByTokenHash st (hashToken sha256hex rawToken)

/-- The `data` argument of `ingestTestRun`: `status`, `duration_ms` (a JS
number, modelled as a rational) and `timestamp`. -/
structure IngestData where
  status : String
  duration_ms : Rat
  timestamp : String
  deriving Repr, DecidableEq

/-- Result of a successful ingestion: the stored record and the
`created` flag. -/
structure IngestResult where
  testRun : TestRun
  created : Bool
  deriving Repr, DecidableEq

/-- Core of `ingestionService.ingestTestRun`
(`src/services/ingestionService.js`).  The insert and the
fetch-after-conflict are two separate storage round trips (they are not
one transaction), so the core takes the state seen by the insert and the
state seen by the fetch separately; the sequential entry point
`ingestionService.ingestTestRun` below passes the same state twice.
Validation happens before any storage access; an insert failure with
`code = "UNIQUE_VIOLATION"` is converted into a `created = false` success
by fetching the existing row; if that fetch finds nothing a plain
`Error("Constraint violation but record not found")` is thrown; any other
insert failure is rethrown unchanged. -/
def ingestionService.ingestCore (stInsert stFetch : DBState) (projectId runId : String)
    (data : IngestData) (freshId createdAt : String) :
    Except JSErr IngestResult × DBState :=
  if runId = "" ∨ uuidValidate runId = false then
    (.error (.appError .validation "run_id must be a valid UUID"), stInsert)
  else if data.status = "" ∨ ¬ (data.status ∈ ["passed", "failed"]) then
    (.error (.appError .validation "status must be \"passed\" or \"failed\""), stInsert)
  else if data.duration_ms < 0 ∨ data.duration_ms.isInt = false then
    (.error (.appError .validation "duration_ms must be a non-negative integer"), stInsert)
  else if data.timestamp = "" ∨ isValidISO8601 data.timestamp = false then
    (.error (.appError .validation "timestamp must be a valid ISO 8601 date string"), stInsert)
  else
    match testRunDB.create stInsert projectId runId data.status data.duration_ms
        data.timestamp freshId createdAt with
    | (.ok testRun, st') => (.ok ⟨testRun, true⟩, st')
    | (.error e, _) =>
        if e.code == some "UNIQUE_VIOLATION" then
          match testRunDB.findByRunId stFetch projectId runId with
          | some existingTestRun => (.ok ⟨existingTestRun, false⟩, stFetch)
          | none =>
              (.error (.plainError none "Constraint violation but record not found"), stFetch)
        else (.error e, stInsert)

/-- `ingestionService.ingestTestRun` with a single storage state: the
insert and the conditional fetch both observe `st`. -/
def ingestionService.ingestTestRun (st : DBState) (projectId runId : String)
    (data : IngestData) (freshId createdAt : String) :
    Except JSErr IngestResult × DBState :=
  ingestionService.ingestCore st st projectId runId data freshId createdAt

/-- Number of stored `test_runs` rows for an idempotency key. -/
def countRunsFor (st : DBState) (pid rid : String) : Nat :=
  (st.test_runs.filter (fun r => r.project_id == pid && r.run_id == rid)).length

/-- Sequential iteration of `ingestTestRun` for one `(project, run_id)`
key: each element of the list carries one call's payload, generated row id
and `created_at`; the state returned by one call feeds the next. -/
def ingestSeq (pid rid : String) :
    List (IngestData × String × String) → DBState →
    List (Except JSErr IngestResult) × DBState
  | [], st => ([], st)
  | (d, fid, cat) :: rest, st =>
      let step := ingestionService.ingestTestRun st pid rid d fid cat
      let next := ingestSeq pid rid rest step.2
      (step.1 :: next.1, next.2)

/-- The JS number `1.5`, as a rational in lowest terms. -/
def oneAndAHalf : Rat := ⟨3, 2, by decide, by decide⟩

/-- Whether an operation outcome is a typed `ConflictError`. -/
def resultIsConflict {α : Type} (r : Except JSErr α) : Bool :=
  match r with
  | .error (.appError .conflict _) => true
  | _ => false

/-- Shared `created_at` sample value for concrete instances. -/
def sampleCreatedAt : String := "2026-01-01T00:00:00.000Z"

/-- Sample organization row. -/
def sampleOrg : Organization := ⟨"org-1", "Acme", sampleCreatedAt⟩

/-- Sample project row under `sampleOrg`. -/
def sampleProject : Project := ⟨"proj-1", "org-1", "API", sampleCreatedAt⟩

/-- A second sample project under `sampleOrg`. -/
def sampleProject2 : Project := ⟨"proj-2", "org-1", "Web", sampleCreatedAt⟩

/-- Sample state: one organization with two projects, no tokens, no runs. -/
def baseState : DBState := ⟨[sampleOrg], [sampleProject, sampleProject2], [], []⟩

/-- Sample client-supplied run id (a v4 UUID). -/
def sampleRunId : String := "770e8400-e29b-41d4-a716-446655440002"

/-- Sample canonical timestamp. -/
def sampleTimestamp : String := "2026-01-12T10:10:00.000Z"

/-- Sample valid ingestion payload. -/
def sampleData : IngestData := ⟨"passed", 1234, sampleTimestamp⟩

/-- The `test_runs` row produced by ingesting `sampleData` into
`sampleProject` with generated id `run-row-1`. -/
def sampleRun : TestRun :=
  ⟨"run-row-1", "proj-1", sampleRunId, "passed", 1234, sampleTimestamp, sampleCreatedAt⟩

/-- `baseState` after the sample ingestion. -/
def ingestedState : DBState := ⟨[sampleOrg], [sampleProject, sampleProject2], [], [sampleRun]⟩

/-- The row produced by ingesting the same `run_id` into `sampleProject2`
with a different payload. -/
def sampleRun2 : TestRun :=
  ⟨"run-row-2", "proj-2", sampleRunId, "failed", 7, "2026-02-02T10:10:00.000Z", sampleCreatedAt⟩

/-- `ingestedState` after also ingesting the same `run_id` into the second
project. -/
def doubleIngestedState : DBState :=
  ⟨[sampleOrg], [sampleProject, sampleProject2], [], [sampleRun, sampleRun2]⟩

/-! ### Helper lemmas -/

lemma uuidValidate_empty : uuidValidate "" = false := by decide

lemma isValidISO8601_empty : isValidISO8601 "" = false := by decide

lemma strIncludes_unique_id :
    strIncludes "SQLITE_CONSTRAINT: UNIQUE constraint failed: test_runs.id"
      "UNIQUE constraint failed" = true := by decide

lemma strIncludes_unique_key :
    strIncludes
      "SQLITE_CONSTRAINT: UNIQUE constraint failed: test_runs.project_id, test_runs.run_id"
      "UNIQUE constraint failed" = true := by decide

lemma strIncludes_fk_not_unique :
    strIncludes "SQLITE_CONSTRAINT: FOREIGN KEY constraint failed"
      "UNIQUE constraint failed" = false := by decide

lemma strIncludes_fk_fk :
    strIncludes "SQLITE_CONSTRAINT: FOREIGN KEY constraint failed"
      "FOREIGN KEY constraint failed" = true := by decide

/-- If the idempotency key `(project_id, run_id)` (or the primary key) is
already taken and the `CHECK` constraints are satisfied, `testRunDB.create`
rejects with the translated `UNIQUE_VIOLATION` error and leaves the state
unchanged. -/
lemma testRunDB_create_unique_violation
    {st : DBState} {pid rid status : String} {dur : Rat} {ts fid cat : String}
    (hs : status = "passed" ∨ status = "failed")
    (hd : ¬ dur < 0)
    (hdup : (st.test_runs.any fun r => r.id == fid) = true ∨
            (st.test_runs.any fun r => r.project_id == pid && r.run_id == rid) = true) :
    testRunDB.create st pid rid status dur ts fid cat =
      (.error (.plainError (some "UNIQUE_VIOLATION")
        ("Test run with run_id " ++ rid ++ " already exists for project " ++ pid)), st) := by
  have hs' : ¬ ¬ (status = "passed" ∨ status = "failed") := fun hc => hc hs
  dsimp only [testRunDB.create, insertTestRun]
  rw [if_neg hs', if_neg hd]
  rcases hdup with h | h
  · rw [if_pos h]
    dsimp only [JSErr.message, sqliteErr]
    rw [if_pos strIncludes_unique_id]
  · by_cases hpk : (st.test_runs.any fun r => r.id == fid) = true
    · rw [if_pos hpk]
      dsimp only [JSErr.message, sqliteErr]
      rw [if_pos strIncludes_unique_id]
    · rw [if_neg hpk, if_pos h]
      dsimp only [JSErr.message, sqliteErr]
      rw [if_pos strIncludes_unique_key]

/-- With valid `CHECK` values, fresh keys, and a missing parent project,
`testRunDB.create` rejects with the translated `FOREIGN_KEY_VIOLATION`
error and leaves the state unchanged. -/
lemma testRunDB_create_fk_violation
    {st : DBState} {pid rid status : String} {dur : Rat} {ts fid cat : String}
    (hs : status = "passed" ∨ status = "failed")
    (hd : ¬ dur < 0)
    (hpk : (st.test_runs.any fun r => r.id == fid) = false)
    (hdup : (st.test_runs.any fun r => r.project_id == pid && r.run_id == rid) = false)
    (hproj : (st.projects.any fun p => p.id == pid) = false) :
    testRunDB.create st pid rid status dur ts fid cat =
      (.error (.plainError (some "FOREIGN_KEY_VIOLATION")
        ("Project with id " ++ pid ++ " does not exist")), st) := by
  have hs' : ¬ ¬ (status = "passed" ∨ status = "failed") := fun hc => hc hs
  dsimp only [testRunDB.create, insertTestRun]
  rw [if_neg hs', if_neg hd, if_neg (by simp [hpk]), if_neg (by simp [hdup]), if_pos (by simp [hproj])]
  dsimp only [JSErr.message, sqliteErr]
  rw [if_neg (by simp [strIncludes_fk_not_unique]), if_pos strIncludes_fk_fk]

/-- With valid `CHECK` values, fresh keys and an existing parent project,
`testRunDB.create` succeeds, returning the inserted row and appending it
to `test_runs`. -/
lemma testRunDB_create_ok
    {st : DBState} {pid rid status : String} {dur : Rat} {ts fid cat : String}
    (hs : status = "passed" ∨ status = "failed")
    (hd : ¬ dur < 0)
    (hpk : (st.test_runs.any fun r => r.id == fid) = false)
    (hdup : (st.test_runs.any fun r => r.project_id == pid && r.run_id == rid) = false)
    (hproj : (st.projects.any fun p => p.id == pid) = true) :
    testRunDB.create st pid rid status dur ts fid cat =
      (.ok ⟨fid, pid, rid, status, dur, ts, cat⟩,
       { st with test_runs := st.test_runs ++ [⟨fid, pid, rid, status, dur, ts, cat⟩] }) := by
  have hs' : ¬ ¬ (status = "passed" ∨ status = "failed") := fun hc => hc hs
  dsimp only [testRunDB.create, insertTestRun]
  rw [if_neg hs', if_neg hd, if_neg (by simp [hpk]), if_neg (by simp [hdup]),
    if_neg (by simp [hproj])]

/-- The four input-validation conditions of `ingestTestRun`, all satisfied. -/
def validIngest (runId : String) (d : IngestData) : Prop :=
  uuidValidate runId = true ∧
  d.status ∈ ["passed", "failed"] ∧
  ¬ d.duration_ms < 0 ∧
  d.duration_ms.isInt = true ∧
  isValidISO8601 d.timestamp = true

instance (runId : String) (d : IngestData) : Decidable (validIngest runId d) := by
  unfold validIngest; infer_instance

lemma not_cond1_of_uuid {runId : String} (h : uuidValidate runId = true) :
    ¬ (runId = "" ∨ uuidValidate runId = false) := by
  rintro (hc | hc)
  · rw [hc] at h; exact absurd h (by decide)
  · rw [h] at hc; exact Bool.noConfusion hc

lemma not_cond2_of_mem {s : String} (h : s ∈ ["passed", "failed"]) :
    ¬ (s = "" ∨ ¬ s ∈ ["passed", "failed"]) := by
  rintro (hc | hc)
  · rw [hc] at h; exact absurd h (by decide)
  · exact hc h

lemma not_cond3_of_ok {q : Rat} (h1 : ¬ q < 0) (h2 : q.isInt = true) :
    ¬ (q < 0 ∨ q.isInt = false) := by
  rintro (hc | hc)
  · exact h1 hc
  · rw [h2] at hc; exact Bool.noConfusion hc

lemma not_cond4_of_valid {ts : String} (h : isValidISO8601 ts = true) :
    ¬ (ts = "" ∨ isValidISO8601 ts = false) := by
  rintro (hc | hc)
  · rw [hc] at h; exact absurd h (by decide)
  · rw [h] at hc; exact Bool.noConfusion hc

lemma validIngest_not_cond1 {runId : String} {d : IngestData} (h : validIngest runId d) :
    ¬ (runId = "" ∨ uuidValidate runId = false) := by
  rintro (hc | hc)
  · rw [hc] at h; exact absurd h.1 (by decide)
  · rw [h.1] at hc; exact Bool.noConfusion hc

lemma validIngest_not_cond2 {runId : String} {d : IngestData} (h : validIngest runId d) :
    ¬ (d.status = "" ∨ ¬ d.status ∈ ["passed", "failed"]) := by
  rintro (hc | hc)
  · have := h.2.1; rw [hc] at this; exact absurd this (by decide)
  · exact hc h.2.1

lemma validIngest_not_cond3 {runId : String} {d : IngestData} (h : validIngest runId d) :
    ¬ (d.duration_ms < 0 ∨ d.duration_ms.isInt = false) := by
  rintro (hc | hc)
  · exact h.2.2.1 hc
  · rw [h.2.2.2.1] at hc; exact Bool.noConfusion hc

lemma validIngest_not_cond4 {runId : String} {d : IngestData} (h : validIngest runId d) :
    ¬ (d.timestamp = "" ∨ isValidISO8601 d.timestamp = false) := by
  rintro (hc | hc)
  · have := h.2.2.2.2; rw [hc] at this; exact absurd this (by decide)
  · rw [h.2.2.2.2] at hc; exact Bool.noConfusion hc

lemma validIngest_status_cases {runId : String} {d : IngestData} (h : validIngest runId d) :
    d.status = "passed" ∨ d.status = "failed" := by
  have := h.2.1
  simp only [List.mem_cons, List.mem_singleton, List.not_mem_nil, or_false] at this
  exact this

/-- When the payload is valid and a row for `(project_id, run_id)` is
already stored, `ingestTestRun` recovers from the storage-level unique
violation: it returns the existing row with `created = false` and leaves
the state unchanged. -/
lemma ingest_existing_row
    {st : DBState} {pid rid : String} {d : IngestData} {fid cat : String} {tr : TestRun}
    (hv : validIngest rid d)
    (hfind : testRunDB.findByRunId st pid rid = some tr) :
    ingestionService.ingestTestRun st pid rid d fid cat = (.ok ⟨tr, false⟩, st) := by
  have hfind2 : st.test_runs.find? (fun r => r.project_id == pid && r.run_id == rid) = some tr :=
    hfind
  have hdup : (st.test_runs.any fun r => r.project_id == pid && r.run_id == rid) = true := by
    rw [List.any_eq_true]
    refine ⟨tr, List.mem_of_find?_eq_some hfind2, ?_⟩
    have hp := List.find?_some hfind2
    simpa using hp
  rw [ingestionService.ingestTestRun, ingestionService.ingestCore,
    if_neg (validIngest_not_cond1 hv), if_neg (validIngest_not_cond2 hv),
    if_neg (validIngest_not_cond3 hv), if_neg (validIngest_not_cond4 hv),
    testRunDB_create_unique_violation (validIngest_status_cases hv) hv.2.2.1 (Or.inr hdup)]
  dsimp only [JSErr.code]
  rw [if_pos (by rfl), hfind]

/-- When the payload is valid, the keys are fresh and the project exists,
`ingestTestRun` inserts the row and reports `created = true`. -/
lemma ingest_fresh_row
    {st : DBState} {pid rid : String} {d : IngestData} {fid cat : String}
    (hv : validIngest rid d)
    (hpk : (st.test_runs.any fun r => r.id == fid) = false)
    (hdup : (st.test_runs.any fun r => r.project_id == pid && r.run_id == rid) = false)
    (hproj : (st.projects.any fun p => p.id == pid) = true) :
    ingestionService.ingestTestRun st pid rid d fid cat =
      (.ok ⟨⟨fid, pid, rid, d.status, d.duration_ms, d.timestamp, cat⟩, true⟩,
       { st with test_runs :=
          st.test_runs ++ [⟨fid, pid, rid, d.status, d.duration_ms, d.timestamp, cat⟩] }) := by
  rw [ingestionService.ingestTestRun, ingestionService.ingestCore,
    if_neg (validIngest_not_cond1 hv), if_neg (validIngest_not_cond2 hv),
    if_neg (validIngest_not_cond3 hv), if_neg (validIngest_not_cond4 hv),
    testRunDB_create_ok (validIngest_status_cases hv) hv.2.2.1 hpk hdup hproj]

/-- When the payload is valid, the keys are fresh and the project does not
exist, the foreign-key failure propagates unchanged (it is not converted
into the idempotency outcome) and nothing is stored. -/
lemma ingest_fk_error
    {st : DBState} {pid rid : String} {d : IngestData} {fid cat : String}
    (hv : validIngest rid d)
    (hpk : (st.test_runs.any fun r => r.id == fid) = false)
    (hdup : (st.test_runs.any fun r => r.project_id == pid && r.run_id == rid) = false)
    (hproj : (st.projects.any fun p => p.id == pid) = false) :
    ingestionService.ingestTestRun st pid rid d fid cat =
      (.error (.plainError (some "FOREIGN_KEY_VIOLATION")
        ("Project with id " ++ pid ++ " does not exist")), st) := by
  rw [ingestionService.ingestTestRun, ingestionService.ingestCore,
    if_neg (validIngest_not_cond1 hv), if_neg (validIngest_not_cond2 hv),
    if_neg (validIngest_not_cond3 hv), if_neg (validIngest_not_cond4 hv),
    testRunDB_create_fk_violation (validIngest_status_cases hv) hv.2.2.1 hpk hdup hproj]
  dsimp only [JSErr.code]
  rw [if_neg (by simp)]

/-- Core-level variant of the conflict recovery where the fetch observes a
state in which the row is absent (the narrow race the source guards
against): the call fails with the plain internal error rather than
fabricating a record. -/
lemma ingest_conflict_fetch_none
    {stI stF : DBState} {pid rid : String} {d : IngestData} {fid cat : String}
    (hv : validIngest rid d)
    (hdup : (stI.test_runs.any fun r => r.project_id == pid && r.run_id == rid) = true)
    (hnone : testRunDB.findByRunId stF pid rid = none) :
    ingestionService.ingestCore stI stF pid rid d fid cat =
      (.error (.plainError none "Constraint violation but record not found"), stF) := by
  rw [ingestionService.ingestCore,
    if_neg (validIngest_not_cond1 hv), if_neg (validIngest_not_cond2 hv),
    if_neg (validIngest_not_cond3 hv), if_neg (validIngest_not_cond4 hv),
    testRunDB_create_unique_violation (validIngest_status_cases hv) hv.2.2.1 (Or.inr hdup)]
  dsimp only [JSErr.code]
  rw [if_pos (by rfl), hnone]

/-- Looking up `(pid, rid)` right after appending a row with that key
finds exactly the appended row, provided no earlier row had the key. -/
lemma findByRunId_append
    {st : DBState} {pid rid : String} {tr : TestRun}
    (hdup : (st.test_runs.any fun r => r.project_id == pid && r.run_id == rid) = false)
    (hpid : tr.project_id = pid) (hrid : tr.run_id = rid) :
    testRunDB.findByRunId { st with test_runs := st.test_runs ++ [tr] } pid rid = some tr := by
  show (st.test_runs ++ [tr]).find? (fun r => r.project_id == pid && r.run_id == rid) = some tr
  rw [List.find?_append]
  have h1 : st.test_runs.find? (fun r => r.project_id == pid && r.run_id == rid) = none := by
    rw [List.find?_eq_none]
    intro x hx
    have := (List.any_eq_false).mp hdup x hx
    simpa using this
  rw [h1]
  simp [hpid, hrid]

/-- Looking up `(pid, rid)` after appending a row with a different key is
the same as looking it up before. -/
lemma findByRunId_append_other
    {st : DBState} {pid rid : String} {tr : TestRun}
    (hne : (tr.project_id == pid && tr.run_id == rid) = false) :
    testRunDB.findByRunId { st with test_runs := st.test_runs ++ [tr] } pid rid =
      testRunDB.findByRunId st pid rid := by
  show (st.test_runs ++ [tr]).find? (fun r => r.project_id == pid && r.run_id == rid) =
    st.test_runs.find? (fun r => r.project_id == pid && r.run_id == rid)
  rw [List.find?_append]
  cases h : st.test_runs.find? (fun r => r.project_id == pid && r.run_id == rid) with
  | none => simp [hne]
  | some a => rfl

/-- Once the row for the key is stored, any number of further sequential
calls with valid payloads are read-only no-ops: each returns the stored
row with `created = false`, and the state never changes. -/
lemma ingestSeq_existing
    {st : DBState} {pid rid : String} {tr : TestRun}
    (hfind : testRunDB.findByRunId st pid rid = some tr)
    (rest : List (IngestData × String × String))
    (hrest : ∀ x ∈ rest, validIngest rid x.1) :
    (∀ r ∈ (ingestSeq pid rid rest st).1, r = .ok ⟨tr, false⟩) ∧
    (ingestSeq pid rid rest st).2 = st := by
  induction rest with
  | nil => exact ⟨by intro r hr; simp [ingestSeq] at hr, rfl⟩
  | cons hd tl ih =>
      obtain ⟨d, fid, cat⟩ := hd
      have hv : validIngest rid d := hrest ⟨d, fid, cat⟩ (List.mem_cons_self _ _)
      have hstep := @ingest_existing_row st pid rid d fid cat tr hv hfind
      have ihtl := ih (fun x hx => hrest x (List.mem_cons_of_mem _ hx))
      constructor
      · intro r hr
        simp only [ingestSeq, hstep] at hr
        rcases List.mem_cons.mp hr with h | h
        · exact h
        · exact ihtl.1 r h
      · simp only [ingestSeq, hstep]
        exact ihtl.2

/-- Every error produced by the modelled storage engine on a `test_runs`
insert is a plain driver error, never an `AppError`. -/
lemma insertTestRun_error_plain
    {st : DBState} {row : TestRun} {err : JSErr}
    (h : insertTestRun st row = .error err) :
    ∃ m, err = .plainError (some "SQLITE_CONSTRAINT") m := by
  unfold insertTestRun at h
  split_ifs at h
  all_goals exact ⟨_, (Except.error.inj h).symm⟩

/-- Every error raised by `testRunDB.create` is a plain error (a driver
error or one of the two translated codes), never an `AppError`. -/
lemma testRunDB_create_error_plain
    {st st' : DBState} {pid rid status : String} {dur : Rat} {ts fid cat : String} {err : JSErr}
    (h : testRunDB.create st pid rid status dur ts fid cat = (.error err, st')) :
    ∃ c m, err = .plainError c m := by
  dsimp only [testRunDB.create] at h
  cases hins : insertTestRun st ⟨fid, pid, rid, status, dur, ts, cat⟩ with
  | error e =>
      rw [hins] at h
      obtain ⟨m, hm⟩ := insertTestRun_error_plain hins
      dsimp only at h
      split_ifs at h
      · obtain ⟨he, _⟩ := (Prod.mk.injEq _ _ _ _).mp h
        exact ⟨_, _, (Except.error.inj he).symm⟩
      · obtain ⟨he, _⟩ := (Prod.mk.injEq _ _ _ _).mp h
        exact ⟨_, _, (Except.error.inj he).symm⟩
      · obtain ⟨he, _⟩ := (Prod.mk.injEq _ _ _ _).mp h
        exact ⟨_, _, by rw [← Except.error.inj he, hm]⟩
  | ok st2 =>
      rw [hins] at h
      exact absurd ((Prod.mk.injEq _ _ _ _).mp h).1 (fun hc => Except.noConfusion hc)

/-! ### Claims -/

/-- C1: for every valid payload whose `(project_id, run_id)` key is not
yet stored (fresh generated row id, existing project), the first
`ingestTestRun` call stores exactly one row and returns `created = true`;
every later sequential call with the same `(project_id, run_id)` and a
valid payload — even with different status, duration_ms or timestamp —
returns `created = false` with record data identical to the first call's
result and does not mutate the stored state, which keeps exactly one row
for the key: the first payload is authoritative. -/
theorem c1_ingest_idempotence
    (st : DBState) (pid rid : String) (d1 : IngestData) (fid1 cat1 : String)
    (rest : List (IngestData × String × String)) (tr : TestRun) (st' : DBState)
    (hv1 : validIngest rid d1)
    (hpk : (st.test_runs.any fun r => r.id == fid1) = false)
    (hdup : (st.test_runs.any fun r => r.project_id == pid && r.run_id == rid) = false)
    (hproj : (st.projects.any fun p => p.id == pid) = true)
    (hrest : ∀ x ∈ rest, validIngest rid x.1)
    (htr : tr = ⟨fid1, pid, rid, d1.status, d1.duration_ms, d1.timestamp, cat1⟩)
    (hst : st' = { st with test_runs := st.test_runs ++ [tr] }) :
    ingestionService.ingestTestRun st pid rid d1 fid1 cat1 = (.ok ⟨tr, true⟩, st') ∧
    ((ingestSeq pid rid rest st').1.all fun r => r == .ok ⟨tr, false⟩) = true ∧
    (ingestSeq pid rid rest st').2 = st' ∧
    countRunsFor st' pid rid = 1 := by
  subst htr hst
  have hfirst := @ingest_fresh_row st pid rid d1 fid1 cat1 hv1 hpk hdup hproj
  have hfind := @findByRunId_append st pid rid
    ⟨fid1, pid, rid, d1.status, d1.duration_ms, d1.timestamp, cat1⟩ hdup rfl rfl
  have hseq := ingestSeq_existing hfind rest hrest
  refine ⟨hfirst, ?_, hseq.2, ?_⟩
  · rw [List.all_eq_true]
    intro r hr
    rw [beq_iff_eq]
    exact hseq.1 r hr
  dsimp only [countRunsFor]
  rw [List.filter_append]
  have h0 : st.test_runs.filter (fun r => r.project_id == pid && r.run_id == rid) = [] := by
    rw [List.filter_eq_nil_iff]
    intro a ha
    simpa using List.any_eq_false.mp hdup a ha
  rw [h0]
  simp

/-- Concrete instance of C1: ingesting the sample payload into the sample
project creates the row; a second call with a different valid payload is a
read-only no-op returning the same row. -/
theorem c1_ingest_idempotence_witness :
    ingestionService.ingestTestRun baseState "proj-1" sampleRunId sampleData
        "run-row-1" sampleCreatedAt = (.ok ⟨sampleRun, true⟩, ingestedState) ∧
    ((ingestSeq "proj-1" sampleRunId
        [(⟨"failed", 7, "2026-02-02T10:10:00.000Z"⟩, "run-row-2", sampleCreatedAt)]
        ingestedState).1.all fun r => r == .ok ⟨sampleRun, false⟩) = true ∧
    (ingestSeq "proj-1" sampleRunId
        [(⟨"failed", 7, "2026-02-02T10:10:00.000Z"⟩, "run-row-2", sampleCreatedAt)]
        ingestedState).2 = ingestedState ∧
    countRunsFor ingestedState "proj-1" sampleRunId = 1 :=
  c1_ingest_idempotence baseState "proj-1" sampleRunId sampleData "run-row-1" sampleCreatedAt
    [(⟨"failed", 7, "2026-02-02T10:10:00.000Z"⟩, "run-row-2", sampleCreatedAt)]
    sampleRun ingestedState
    (by decide) (by decide) (by decide) (by decide) (by decide) (by decide) (by decide)

/-- C2: with a valid payload, (1) an insert that fails on the idempotency
constraint is never surfaced: the existing row is fetched and the call
succeeds with `created = false`; (2) if that fetch observes a state where
the row is absent, the call fails with the plain internal error (`Error`
with message `Constraint violation but record not found`) rather than
fabricating a record; (3) any other storage failure, e.g. the
`project_id` foreign-key violation, propagates unchanged as an error
distinct from the idempotency path. -/
theorem c2_conflict_recovery :
    (∀ (st : DBState) (pid rid : String) (d : IngestData) (fid cat : String) (tr : TestRun),
      validIngest rid d →
      testRunDB.findByRunId st pid rid = some tr →
      ingestionService.ingestTestRun st pid rid d fid cat = (.ok ⟨tr, false⟩, st)) ∧
    (∀ (stI stF : DBState) (pid rid : String) (d : IngestData) (fid cat : String),
      validIngest rid d →
      (stI.test_runs.any fun r => r.project_id == pid && r.run_id == rid) = true →
      testRunDB.findByRunId stF pid rid = none →
      ingestionService.ingestCore stI stF pid rid d fid cat =
        (.error (.plainError none "Constraint violation but record not found"), stF)) ∧
    (∀ (st : DBState) (pid rid : String) (d : IngestData) (fid cat : String),
      validIngest rid d →
      (st.test_runs.any fun r => r.id == fid) = false →
      (st.test_runs.any fun r => r.project_id == pid && r.run_id == rid) = false →
      (st.projects.any fun p => p.id == pid) = false →
      ingestionService.ingestTestRun st pid rid d fid cat =
        (.error (.plainError (some "FOREIGN_KEY_VIOLATION")
          ("Project with id " ++ pid ++ " does not exist")), st)) :=
  ⟨fun _ _ _ _ _ _ _ hv hf => ingest_existing_row hv hf,
   fun _ _ _ _ _ _ _ hv hdup hn => ingest_conflict_fetch_none hv hdup hn,
   fun _ _ _ _ _ _ hv hpk hdup hproj => ingest_fk_error hv hpk hdup hproj⟩

/-- Concrete instance of C2: re-ingesting into a state that already holds
the row succeeds with `created = false`; a conflicted insert whose fetch
observes an empty store raises the internal error; ingesting under a
nonexistent project surfaces the foreign-key failure. -/
theorem c2_conflict_recovery_witness :
    ingestionService.ingestTestRun ingestedState "proj-1" sampleRunId sampleData
        "run-row-9" sampleCreatedAt = (.ok ⟨sampleRun, false⟩, ingestedState) ∧
    ingestionService.ingestCore ingestedState baseState "proj-1" sampleRunId sampleData
        "run-row-9" sampleCreatedAt =
      (.error (.plainError none "Constraint violation but record not found"), baseState) ∧
    ingestionService.ingestTestRun baseState "proj-404" sampleRunId sampleData
        "run-row-9" sampleCreatedAt =
      (.error (.plainError (some "FOREIGN_KEY_VIOLATION")
        ("Project with id " ++ "proj-404" ++ " does not exist")), baseState) :=
  ⟨c2_conflict_recovery.1 ingestedState "proj-1" sampleRunId sampleData
      "run-row-9" sampleCreatedAt sampleRun (by decide) (by decide),
   c2_conflict_recovery.2.1 ingestedState baseState "proj-1" sampleRunId sampleData
      "run-row-9" sampleCreatedAt (by decide) (by decide) (by decide),
   c2_conflict_recovery.2.2 baseState "proj-404" sampleRunId sampleData
      "run-row-9" sampleCreatedAt (by decide) (by decide) (by decide) (by decide)⟩

/-- C3: whenever the payload fails any of the four validation rules —
`run_id` not a valid UUID, `status` not exactly `passed`/`failed`,
`duration_ms` negative or non-integral, or `timestamp` not a valid
ISO-8601 string — `ingestTestRun` fails with a `ValidationError`, the
state is unchanged, and the outcome is the same against every state (no
storage access occurs). -/
theorem c3_validation_boundary :
    (∀ (st : DBState) (pid rid : String) (d : IngestData) (fid cat : String),
      uuidValidate rid = false →
      ingestionService.ingestTestRun st pid rid d fid cat =
        (.error (.appError .validation "run_id must be a valid UUID"), st)) ∧
    (∀ (st : DBState) (pid rid : String) (d : IngestData) (fid cat : String),
      uuidValidate rid = true → ¬ d.status ∈ ["passed", "failed"] →
      ingestionService.ingestTestRun st pid rid d fid cat =
        (.error (.appError .validation "status must be \"passed\" or \"failed\""), st)) ∧
    (∀ (st : DBState) (pid rid : String) (d : IngestData) (fid cat : String),
      uuidValidate rid = true → d.status ∈ ["passed", "failed"] →
      (d.duration_ms < 0 ∨ d.duration_ms.isInt = false) →
      ingestionService.ingestTestRun st pid rid d fid cat =
        (.error (.appError .validation "duration_ms must be a non-negative integer"), st)) ∧
    (∀ (st : DBState) (pid rid : String) (d : IngestData) (fid cat : String),
      uuidValidate rid = true → d.status ∈ ["passed", "failed"] →
      ¬ d.duration_ms < 0 → d.duration_ms.isInt = true →
      isValidISO8601 d.timestamp = false →
      ingestionService.ingestTestRun st pid rid d fid cat =
        (.error (.appError .validation "timestamp must be a valid ISO 8601 date string"), st)) := by
  refine ⟨fun st pid rid d fid cat h => ?_, fun st pid rid d fid cat hu hs => ?_,
    fun st pid rid d fid cat hu hs hd => ?_, fun st pid rid d fid cat hu hs hd hi ht => ?_⟩
  · rw [ingestionService.ingestTestRun, ingestionService.ingestCore, if_pos (Or.inr h)]
  · rw [ingestionService.ingestTestRun, ingestionService.ingestCore,
      if_neg (not_cond1_of_uuid hu), if_pos (Or.inr hs)]
  · rw [ingestionService.ingestTestRun, ingestionService.ingestCore,
      if_neg (not_cond1_of_uuid hu), if_neg (not_cond2_of_mem hs), if_pos ?_]
    rcases hd with h | h
    · exact Or.inl h
    · exact Or.inr h
  · rw [ingestionService.ingestTestRun, ingestionService.ingestCore,
      if_neg (not_cond1_of_uuid hu), if_neg (not_cond2_of_mem hs),
      if_neg (not_cond3_of_ok hd hi), if_pos (Or.inr ht)]

/-- Concrete instance of C3: `run_id = "not-a-uuid"`, `status = "PASSED"`,
`duration_ms = -1`, `duration_ms = 1.5` and `timestamp = "not-a-date"` are
each rejected as a `ValidationError` with the corresponding message, and
the state is unchanged. -/
theorem c3_validation_boundary_witness :
    ingestionService.ingestTestRun baseState "proj-1" "not-a-uuid" sampleData
        "run-row-1" sampleCreatedAt =
      (.error (.appError .validation "run_id must be a valid UUID"), baseState) ∧
    ingestionService.ingestTestRun baseState "proj-1" sampleRunId
        ⟨"PASSED", 1234, sampleTimestamp⟩ "run-row-1" sampleCreatedAt =
      (.error (.appError .validation "status must be \"passed\" or \"failed\""), baseState) ∧
    ingestionService.ingestTestRun baseState "proj-1" sampleRunId
        ⟨"passed", -1, sampleTimestamp⟩ "run-row-1" sampleCreatedAt =
      (.error (.appError .validation "duration_ms must be a non-negative integer"), baseState) ∧
    ingestionService.ingestTestRun baseState "proj-1" sampleRunId
        ⟨"passed", oneAndAHalf, sampleTimestamp⟩ "run-row-1" sampleCreatedAt =
      (.error (.appError .validation "duration_ms must be a non-negative integer"), baseState) ∧
    ingestionService.ingestTestRun baseState "proj-1" sampleRunId
        ⟨"passed", 1234, "not-a-date"⟩ "run-row-1" sampleCreatedAt =
      (.error (.appError .validation "timestamp must be a valid ISO 8601 date string"), baseState) :=
  ⟨c3_validation_boundary.1 baseState "proj-1" "not-a-uuid" sampleData
      "run-row-1" sampleCreatedAt (by decide),
   c3_validation_boundary.2.1 baseState "proj-1" sampleRunId
      ⟨"PASSED", 1234, sampleTimestamp⟩ "run-row-1" sampleCreatedAt (by decide) (by decide),
   c3_validation_boundary.2.2.1 baseState "proj-1" sampleRunId
      ⟨"passed", -1, sampleTimestamp⟩ "run-row-1" sampleCreatedAt
      (by decide) (by decide) (Or.inl (by decide)),
   c3_validation_boundary.2.2.1 baseState "proj-1" sampleRunId
      ⟨"passed", oneAndAHalf, sampleTimestamp⟩ "run-row-1" sampleCreatedAt
      (by decide) (by decide) (Or.inr (by decide)),
   c3_validation_boundary.2.2.2 baseState "proj-1" sampleRunId
      ⟨"passed", 1234, "not-a-date"⟩ "run-row-1" sampleCreatedAt
      (by decide) (by decide) (by decide) (by decide) (by decide)⟩

/-- C4: ingesting the same `run_id` into two distinct projects (distinct
generated row ids, both projects existing, key not yet stored in either)
produces two distinct stored rows, each carrying its own project's
payload; afterwards each `(project, run_id)` pair remains independently
idempotent: re-ingesting either key returns that project's row with
`created = false` and leaves the state unchanged, and each key has exactly
one stored row — uniqueness of `run_id` is per project, not global. -/
theorem c4_run_id_scoped_per_project
    (st : DBState) (pid1 pid2 rid : String) (d1 d2 : IngestData)
    (fid1 fid2 cat1 cat2 : String) (tr1 tr2 : TestRun) (st1 st2 : DBState)
    (hne : pid1 ≠ pid2) (hfid : fid1 ≠ fid2)
    (hv1 : validIngest rid d1) (hv2 : validIngest rid d2)
    (hpk1 : (st.test_runs.any fun r => r.id == fid1) = false)
    (hpk2 : (st.test_runs.any fun r => r.id == fid2) = false)
    (hdup1 : (st.test_runs.any fun r => r.project_id == pid1 && r.run_id == rid) = false)
    (hdup2 : (st.test_runs.any fun r => r.project_id == pid2 && r.run_id == rid) = false)
    (hproj1 : (st.projects.any fun p => p.id == pid1) = true)
    (hproj2 : (st.projects.any fun p => p.id == pid2) = true)
    (htr1 : tr1 = ⟨fid1, pid1, rid, d1.status, d1.duration_ms, d1.timestamp, cat1⟩)
    (htr2 : tr2 = ⟨fid2, pid2, rid, d2.status, d2.duration_ms, d2.timestamp, cat2⟩)
    (hst1 : st1 = { st with test_runs := st.test_runs ++ [tr1] })
    (hst2 : st2 = { st1 with test_runs := st1.test_runs ++ [tr2] }) :
    ingestionService.ingestTestRun st pid1 rid d1 fid1 cat1 = (.ok ⟨tr1, true⟩, st1) ∧
    ingestionService.ingestTestRun st1 pid2 rid d2 fid2 cat2 = (.ok ⟨tr2, true⟩, st2) ∧
    tr1.id ≠ tr2.id ∧ tr1.project_id = pid1 ∧ tr2.project_id = pid2 ∧
    countRunsFor st2 pid1 rid = 1 ∧ countRunsFor st2 pid2 rid = 1 ∧
    (∀ (d3 : IngestData) (fid3 cat3 : String), validIngest rid d3 →
      ingestionService.ingestTestRun st2 pid1 rid d3 fid3 cat3 = (.ok ⟨tr1, false⟩, st2)) ∧
    (∀ (d4 : IngestData) (fid4 cat4 : String), validIngest rid d4 →
      ingestionService.ingestTestRun st2 pid2 rid d4 fid4 cat4 = (.ok ⟨tr2, false⟩, st2)) := by
  subst htr1 htr2 hst1 hst2
  have hbne : (pid1 == pid2) = false := beq_eq_false_iff_ne.mpr hne
  have hbne2 : (pid2 == pid1) = false := beq_eq_false_iff_ne.mpr (fun h => hne h.symm)
  have hbfid : (fid1 == fid2) = false := beq_eq_false_iff_ne.mpr hfid
  have hfirst := @ingest_fresh_row st pid1 rid d1 fid1 cat1 hv1 hpk1 hdup1 hproj1
  have hpk2b : (({ st with test_runs := st.test_runs ++
      [⟨fid1, pid1, rid, d1.status, d1.duration_ms, d1.timestamp, cat1⟩] } : DBState).test_runs.any
      fun r => r.id == fid2) = false := by
    dsimp only
    rw [List.any_append]
    simp [hpk2, hbfid]
  have hdup2b : (({ st with test_runs := st.test_runs ++
      [⟨fid1, pid1, rid, d1.status, d1.duration_ms, d1.timestamp, cat1⟩] } : DBState).test_runs.any
      fun r => r.project_id == pid2 && r.run_id == rid) = false := by
    dsimp only
    rw [List.any_append]
    simp [hdup2, hbne]
  have hsecond := @ingest_fresh_row
    { st with test_runs := st.test_runs ++
      [⟨fid1, pid1, rid, d1.status, d1.duration_ms, d1.timestamp, cat1⟩] }
    pid2 rid d2 fid2 cat2 hv2 hpk2b hdup2b hproj2
  have hfind1 : testRunDB.findByRunId
      ({ st with test_runs := (st.test_runs ++
        [⟨fid1, pid1, rid, d1.status, d1.duration_ms, d1.timestamp, cat1⟩]) ++
        [⟨fid2, pid2, rid, d2.status, d2.duration_ms, d2.timestamp, cat2⟩] }) pid1 rid =
      some ⟨fid1, pid1, rid, d1.status, d1.duration_ms, d1.timestamp, cat1⟩ := by
    have hstep := @findByRunId_append_other
      { st with test_runs := st.test_runs ++
        [⟨fid1, pid1, rid, d1.status, d1.duration_ms, d1.timestamp, cat1⟩] }
      pid1 rid ⟨fid2, pid2, rid, d2.status, d2.duration_ms, d2.timestamp, cat2⟩
      (by simp [hbne2])
    rw [hstep]
    exact findByRunId_append hdup1 rfl rfl
  have hfind2 : testRunDB.findByRunId
      ({ st with test_runs := (st.test_runs ++
        [⟨fid1, pid1, rid, d1.status, d1.duration_ms, d1.timestamp, cat1⟩]) ++
        [⟨fid2, pid2, rid, d2.status, d2.duration_ms, d2.timestamp, cat2⟩] }) pid2 rid =
      some ⟨fid2, pid2, rid, d2.status, d2.duration_ms, d2.timestamp, cat2⟩ :=
    @findByRunId_append
      { st with test_runs := st.test_runs ++
        [⟨fid1, pid1, rid, d1.status, d1.duration_ms, d1.timestamp, cat1⟩] }
      pid2 rid ⟨fid2, pid2, rid, d2.status, d2.duration_ms, d2.timestamp, cat2⟩
      hdup2b rfl rfl
  refine ⟨hfirst, hsecond, by simpa using hfid, rfl, rfl, ?_, ?_,
    fun d3 fid3 cat3 hv3 => ingest_existing_row hv3 hfind1,
    fun d4 fid4 cat4 hv4 => ingest_existing_row hv4 hfind2⟩
  · dsimp only [countRunsFor]
    rw [List.filter_append, List.filter_append]
    have h0 : st.test_runs.filter (fun r => r.project_id == pid1 && r.run_id == rid) = [] := by
      rw [List.filter_eq_nil_iff]
      intro a ha
      simpa using List.any_eq_false.mp hdup1 a ha
    rw [h0]
    simp [hbne2]
  · dsimp only [countRunsFor]
    rw [List.filter_append, List.filter_append]
    have h0 : st.test_runs.filter (fun r => r.project_id == pid2 && r.run_id == rid) = [] := by
      rw [List.filter_eq_nil_iff]
      intro a ha
      simpa using List.any_eq_false.mp hdup2 a ha
    rw [h0]
    simp [hbne]

/-- Concrete instance of C4: the sample `run_id` ingested into `proj-1`
and then into `proj-2` yields two distinct rows; re-ingesting each key
returns its own project's row with `created = false` and no state change. -/
theorem c4_run_id_scoped_per_project_witness :
    ingestionService.ingestTestRun baseState "proj-1" sampleRunId sampleData
        "run-row-1" sampleCreatedAt = (.ok ⟨sampleRun, true⟩, ingestedState) ∧
    ingestionService.ingestTestRun ingestedState "proj-2" sampleRunId
        ⟨"failed", 7, "2026-02-02T10:10:00.000Z"⟩ "run-row-2" sampleCreatedAt =
      (.ok ⟨sampleRun2, true⟩, doubleIngestedState) ∧
    sampleRun.id ≠ sampleRun2.id ∧
    countRunsFor doubleIngestedState "proj-1" sampleRunId = 1 ∧
    countRunsFor doubleIngestedState "proj-2" sampleRunId = 1 ∧
    ingestionService.ingestTestRun doubleIngestedState "proj-1" sampleRunId sampleData
        "run-row-3" sampleCreatedAt = (.ok ⟨sampleRun, false⟩, doubleIngestedState) ∧
    ingestionService.ingestTestRun doubleIngestedState "proj-2" sampleRunId sampleData
        "run-row-3" sampleCreatedAt = (.ok ⟨sampleRun2, false⟩, doubleIngestedState) := by
  have h := c4_run_id_scoped_per_project baseState "proj-1" "proj-2" sampleRunId
    sampleData ⟨"failed", 7, "2026-02-02T10:10:00.000Z"⟩
    "run-row-1" "run-row-2" sampleCreatedAt sampleCreatedAt
    sampleRun sampleRun2 ingestedState doubleIngestedState
    (by decide) (by decide) (by decide) (by decide) (by decide) (by decide)
    (by decide) (by decide) (by decide) (by decide) (by decide) (by decide)
    (by decide) (by decide)
  exact ⟨h.1, h.2.1, h.2.2.1, h.2.2.2.2.2.1, h.2.2.2.2.2.2.1,
    h.2.2.2.2.2.2.2.1 sampleData "run-row-3" sampleCreatedAt (by decide),
    h.2.2.2.2.2.2.2.2 sampleData "run-row-3" sampleCreatedAt (by decide)⟩

/-- C5: for an existing project (fresh token row id, no stored token with
the same hash), `createToken` returns the raw token `ta_live_` + 64 hex
characters and persists only its SHA-256 hex digest; since the digest of
any input is 64 characters while the raw token is 72, the persisted
`token_hash` never equals the raw value; and `validateToken` applied to
that exact raw token resolves to the id of the project it was issued
for. -/
theorem c5_token_secrecy_roundtrip
    (sha256hex : String → String) (st : DBState) (pid randomHex fid cat : String)
    (proj : Project)
    (hpid : pid ≠ "")
    (hfound : projectDB.findById st pid = some proj)
    (hlen : ∀ s, (sha256hex s).length = 64)
    (hrand : randomHex.length = 64)
    (hpk : (st.api_tokens.any fun t => t.id == fid) = false)
    (hhash : (st.api_tokens.any fun t =>
      t.token_hash == sha256hex ("ta_live_" ++ randomHex)) = false) :
    tokenService.createToken sha256hex st pid randomHex fid cat =
      (.ok ⟨"ta_live_" ++ randomHex, pid,
        "Store this token securely. It will not be shown again."⟩,
       { st with api_tokens := st.api_tokens ++
          [⟨fid, pid, sha256hex ("ta_live_" ++ randomHex), cat⟩] }) ∧
    sha256hex ("ta_live_" ++ randomHex) ≠ "ta_live_" ++ randomHex ∧
    tokenService.validateToken sha256hex
      { st with api_tokens := st.api_tokens ++
        [⟨fid, pid, sha256hex ("ta_live_" ++ randomHex), cat⟩] }
      ("ta_live_" ++ randomHex) = some pid := by
  have hfound2 : st.projects.find? (fun p => p.id == pid) = some proj := hfound
  have hproj : (st.projects.any fun p => p.id == pid) = true := by
    rw [List.any_eq_true]
    refine ⟨proj, List.mem_of_find?_eq_some hfound2, ?_⟩
    have hp := List.find?_some hfound2
    simpa using hp
  have hraw_len : ("ta_live_" ++ randomHex).length = 72 := by
    rw [String.length_append, hrand]
    decide
  have hne : sha256hex ("ta_live_" ++ randomHex) ≠ "ta_live_" ++ randomHex := by
    intro he
    have hl := congrArg String.length he
    rw [hlen, hraw_len] at hl
    exact absurd hl (by decide)
  refine ⟨?_, hne, ?_⟩
  · rw [tokenService.createToken, if_neg hpid, hfound]
    dsimp only [generateToken, hashToken, tokenDB.create, insertApiToken]
    rw [if_neg (by simp [hpk]), if_neg (by simp [hhash]), if_neg (by simp [hproj])]
  · rw [tokenService.validateToken,
      if_neg (fun he => by rw [he] at hraw_len; exact absurd hraw_len (by decide))]
    dsimp only [hashToken, tokenDB.findProjectByTokenHash]
    rw [List.find?_append]
    have h0 : st.api_tokens.find?
        (fun t => t.token_hash == sha256hex ("ta_live_" ++ randomHex)) = none := by
      rw [List.find?_eq_none]
      intro x hx
      simpa using List.any_eq_false.mp hhash x hx
    rw [h0]
    simp

/-- Concrete instance of C5, with a stand-in digest function that returns
a fixed 64-character hex string: the raw token is returned once, the
stored hash differs from it, and resolving the raw token yields the
issuing project. -/
theorem c5_token_secrecy_roundtrip_witness :
    tokenService.createToken
        (fun _ => "e3b0c44298fc1c149afbf4c8996fb92427ae41e4649b934ca495991b7852b855")
        baseState "proj-1"
        "aaaaaaaaaaaaaaaaaaaaaaaaaaaaaaaaaaaaaaaaaaaaaaaaaaaaaaaaaaaaaaaa"
        "token-row-1" sampleCreatedAt =
      (.ok ⟨"ta_live_" ++ "aaaaaaaaaaaaaaaaaaaaaaaaaaaaaaaaaaaaaaaaaaaaaaaaaaaaaaaaaaaaaaaa",
        "proj-1", "Store this token securely. It will not be shown again."⟩,
       { baseState with api_tokens := baseState.api_tokens ++
          [⟨"token-row-1", "proj-1",
            "e3b0c44298fc1c149afbf4c8996fb92427ae41e4649b934ca495991b7852b855",
            sampleCreatedAt⟩] }) ∧
    ("e3b0c44298fc1c149afbf4c8996fb92427ae41e4649b934ca495991b7852b855" : String) ≠
      "ta_live_" ++ "aaaaaaaaaaaaaaaaaaaaaaaaaaaaaaaaaaaaaaaaaaaaaaaaaaaaaaaaaaaaaaaa" ∧
    tokenService.validateToken
        (fun _ => "e3b0c44298fc1c149afbf4c8996fb92427ae41e4649b934ca495991b7852b855")
        { baseState with api_tokens := baseState.api_tokens ++
          [⟨"token-row-1", "proj-1",
            "e3b0c44298fc1c149afbf4c8996fb92427ae41e4649b934ca495991b7852b855",
            sampleCreatedAt⟩] }
        ("ta_live_" ++ "aaaaaaaaaaaaaaaaaaaaaaaaaaaaaaaaaaaaaaaaaaaaaaaaaaaaaaaaaaaaaaaa") =
      some "proj-1" :=
  c5_token_secrecy_roundtrip
    (fun _ => "e3b0c44298fc1c149afbf4c8996fb92427ae41e4649b934ca495991b7852b855")
    baseState "proj-1"
    "aaaaaaaaaaaaaaaaaaaaaaaaaaaaaaaaaaaaaaaaaaaaaaaaaaaaaaaaaaaaaaaa"
    "token-row-1" sampleCreatedAt sampleProject
    (by decide) (by decide) (fun _ => rfl) (by decide) (by decide) (by decide)

/-- C6: `createProject` under a nonexistent organization id and
`createToken` under a nonexistent project id each fail with a
`NotFoundError` and leave the state unchanged (no row is created): the
parent-existence lookup happens before any write, so the failure is the
typed not-found signal rather than a storage foreign-key error. -/
theorem c6_parent_existence_checked_first :
    (∀ (st : DBState) (organizationId name fid cat : String),
      jsTrim name ≠ "" → organizationId ≠ "" →
      orgDB.findById st organizationId = none →
      projectService.createProject st organizationId name fid cat =
        (.error (.appError .notFound
          ("Organization with id " ++ organizationId ++ " does not exist")), st)) ∧
    (∀ (sha256hex : String → String) (st : DBState) (pid randomHex fid cat : String),
      pid ≠ "" →
      projectDB.findById st pid = none →
      tokenService.createToken sha256hex st pid randomHex fid cat =
        (.error (.appError .notFound
          ("Project with id " ++ pid ++ " does not exist")), st)) := by
  constructor
  · intro st organizationId name fid cat hname horg hfind
    have hn1 : ¬ (name = "" ∨ jsTrim name = "") := by
      rintro (hc | hc)
      · exact hname (by rw [hc]; rfl)
      · exact hname hc
    rw [projectService.createProject, if_neg hn1, if_neg horg, hfind]
  · intro sha256hex st pid randomHex fid cat hpid hfind
    rw [tokenService.createToken, if_neg hpid, hfind]

/-- Concrete instance of C6: creating a project under organization
`org-404` and a token under project `proj-404` both return the typed
not-found failure against the sample state, which is unchanged. -/
theorem c6_parent_existence_checked_first_witness :
    projectService.createProject baseState "org-404" "API" "proj-row-1" sampleCreatedAt =
      (.error (.appError .notFound
        ("Organization with id " ++ "org-404" ++ " does not exist")), baseState) ∧
    tokenService.createToken (fun _ => "h") baseState "proj-404"
        "aaaaaaaaaaaaaaaaaaaaaaaaaaaaaaaaaaaaaaaaaaaaaaaaaaaaaaaaaaaaaaaa"
        "token-row-1" sampleCreatedAt =
      (.error (.appError .notFound
        ("Project with id " ++ "proj-404" ++ " does not exist")), baseState) :=
  ⟨c6_parent_existence_checked_first.1 baseState "org-404" "API" "proj-row-1"
      sampleCreatedAt (by decide) (by decide) (by decide),
   c6_parent_existence_checked_first.2 (fun _ => "h") baseState "proj-404"
      "aaaaaaaaaaaaaaaaaaaaaaaaaaaaaaaaaaaaaaaaaaaaaaaaaaaaaaaaaaaaaaaa"
      "token-row-1" sampleCreatedAt (by decide) (by decide)⟩

/-- C7 counterexample: calling `createOrganization` with the name `Acme`,
which the sample state already stores, does not signal a typed
`ConflictError`: the raw storage error (plain error, code
`SQLITE_CONSTRAINT`) propagates out of the service unchanged, because
`orgDB.create` never translates the driver error to the
`UNIQUE_VIOLATION` code the service's conversion branch matches on. -/
theorem c7_counterexample_raw_error_from_service :
    orgService.createOrganization baseState "Acme" "org-2" sampleCreatedAt =
      (.error (.plainError (some "SQLITE_CONSTRAINT")
        "SQLITE_CONSTRAINT: UNIQUE constraint failed: organizations.name"), baseState) ∧
    resultIsConflict
      (orgService.createOrganization baseState "Acme" "org-2" sampleCreatedAt).1 = false := by
  decide

/-- C7 amended: on a duplicate organization name, `createOrganization`
itself propagates the storage-level violation unchanged as the raw plain
error with code `SQLITE_CONSTRAINT` (its `UNIQUE_VIOLATION` conversion
branch is dead because `orgDB.create` performs no translation); the typed
`ConflictError` is produced one layer up, by the `POST /orgs` route
handler, which matches the raw sqlite error shape. -/
theorem c7_conflict_raised_at_route
    (st : DBState) (name fid cat : String)
    (hname : jsTrim name ≠ "")
    (hdup : (st.organizations.any fun o => o.name == jsTrim name) = true)
    (hpk : (st.organizations.any fun o => o.id == fid) = false) :
    orgService.createOrganization st name fid cat =
      (.error (.plainError (some "SQLITE_CONSTRAINT")
        "SQLITE_CONSTRAINT: UNIQUE constraint failed: organizations.name"), st) ∧
    orgsRoute.post st name fid cat =
      (.error (.appError .conflict
        ("Organization with name \"" ++ name ++ "\" already exists")), st) := by
  have hn1 : ¬ (name = "" ∨ jsTrim name = "") := by
    rintro (hc | hc)
    · exact hname (by rw [hc]; rfl)
    · exact hname hc
  have hdb : orgDB.create st (jsTrim name) fid cat =
      (.error (.plainError (some "SQLITE_CONSTRAINT")
        "SQLITE_CONSTRAINT: UNIQUE constraint failed: organizations.name"), st) := by
    dsimp only [orgDB.create, insertOrganization]
    rw [if_neg (by simp [hpk]), if_pos hdup]
    rfl
  have hsvc : orgService.createOrganization st name fid cat =
      (.error (.plainError (some "SQLITE_CONSTRAINT")
        "SQLITE_CONSTRAINT: UNIQUE constraint failed: organizations.name"), st) := by
    rw [orgService.createOrganization, if_neg hn1, hdb]
    dsimp only [JSErr.code]
    rw [if_neg (by decide)]
  refine ⟨hsvc, ?_⟩
  rw [orgsRoute.post, hsvc]
  dsimp only [JSErr.code, JSErr.message]
  rw [if_pos (by decide)]

/-- Concrete instance of the amended C7: creating `"  Acme  "` (which
trims to the already-stored name `Acme`) yields the raw sqlite error from
the service, and the typed conflict from the route handler. -/
theorem c7_conflict_raised_at_route_witness :
    orgService.createOrganization baseState "  Acme  " "org-2" sampleCreatedAt =
      (.error (.plainError (some "SQLITE_CONSTRAINT")
        "SQLITE_CONSTRAINT: UNIQUE constraint failed: organizations.name"), baseState) ∧
    orgsRoute.post baseState "  Acme  " "org-2" sampleCreatedAt =
      (.error (.appError .conflict
        ("Organization with name \"" ++ "  Acme  " ++ "\" already exists")), baseState) :=
  c7_conflict_raised_at_route baseState "  Acme  " "org-2" sampleCreatedAt
    (by decide) (by decide) (by decide)

/-- C8: `ingestTestRun` accepts a timestamp exactly when parsing it and
reserializing the parsed instant reproduces the input character for
character (`isValidISO8601` holds iff the parse succeeds and
`toISOString` of the result equals the input); a string that parses but
is not in that canonical serialized form — with the other fields valid —
is rejected with the timestamp `ValidationError` and no state change. -/
theorem c8_timestamp_roundtrip :
    (∀ ts : String, isValidISO8601 ts = true ↔
      ∃ dt, jsDateParse ts = some dt ∧ jsToISOString dt = ts) ∧
    (∀ (st : DBState) (pid rid : String) (d : IngestData) (fid cat : String)
        (dt : JSDateTime),
      jsDateParse d.timestamp = some dt → jsToISOString dt ≠ d.timestamp →
      uuidValidate rid = true → d.status ∈ ["passed", "failed"] →
      ¬ d.duration_ms < 0 → d.duration_ms.isInt = true →
      ingestionService.ingestTestRun st pid rid d fid cat =
        (.error (.appError .validation "timestamp must be a valid ISO 8601 date string"), st)) := by
  constructor
  · intro ts
    rw [isValidISO8601]
    cases h : jsDateParse ts with
    | none =>
        simp only [Bool.false_eq_true, false_iff]
        rintro ⟨dt, hdt, _⟩
        exact Option.noConfusion hdt
    | some dt =>
        simp only [beq_iff_eq]
        constructor
        · intro he
          exact ⟨dt, rfl, he⟩
        · rintro ⟨dt2, hdt2, he⟩
          rw [show dt = dt2 from Option.some.inj hdt2]
          exact he
  · intro st pid rid d fid cat dt hparse hne hu hs hd hi
    have hts : isValidISO8601 d.timestamp = false := by
      rw [isValidISO8601, hparse]
      exact beq_eq_false_iff_ne.mpr hne
    rw [ingestionService.ingestTestRun, ingestionService.ingestCore,
      if_neg (not_cond1_of_uuid hu), if_neg (not_cond2_of_mem hs),
      if_neg (not_cond3_of_ok hd hi), if_pos (Or.inr hts)]

/-- Concrete instance of C8: the canonical `2026-01-12T10:10:00.000Z` is
accepted (it round-trips to itself), while `2026-01-12T10:10:00Z` parses
to the same instant but reserializes with milliseconds, so it is rejected
as a `ValidationError` with the rest of the payload valid. -/
theorem c8_timestamp_roundtrip_witness :
    (isValidISO8601 "2026-01-12T10:10:00.000Z" = true ↔
      ∃ dt, jsDateParse "2026-01-12T10:10:00.000Z" = some dt ∧
        jsToISOString dt = "2026-01-12T10:10:00.000Z") ∧
    ingestionService.ingestTestRun baseState "proj-1" sampleRunId
        ⟨"passed", 1234, "2026-01-12T10:10:00Z"⟩ "run-row-1" sampleCreatedAt =
      (.error (.appError .validation "timestamp must be a valid ISO 8601 date string"),
       baseState) :=
  ⟨c8_timestamp_roundtrip.1 "2026-01-12T10:10:00.000Z",
   c8_timestamp_roundtrip.2 baseState "proj-1" sampleRunId
      ⟨"passed", 1234, "2026-01-12T10:10:00Z"⟩ "run-row-1" sampleCreatedAt
      ⟨2026, 1, 12, 10, 10, 0, 0⟩ (by decide) (by decide) (by decide) (by decide)
      (by decide) (by decide)⟩

/-- C9 counterexample: `ingestTestRun` does not trim the status — the
claim that `" passed "` is accepted after trimming is false: with every
other field valid, status `" passed "` is rejected as a
`ValidationError`, exactly like `"PASSED"`. -/
theorem c9_counterexample_status_not_trimmed :
    ingestionService.ingestTestRun baseState "proj-1" sampleRunId
        ⟨" passed ", 1234, sampleTimestamp⟩ "run-row-1" sampleCreatedAt =
      (.error (.appError .validation "status must be \"passed\" or \"failed\""),
       baseState) := by
  decide

/-- C9 amended: `ingestTestRun` accepts a status exactly when it is the
exact, case-sensitive string `passed` or `failed`, with no trimming
applied at this layer: both `" passed "` and `"PASSED"` are rejected with
the status `ValidationError` (whitespace trimming of `status` happens
earlier, in the HTTP route's sanitizer, not in `ingestTestRun`). -/
theorem c9_status_exact_no_trim
    (st : DBState) (pid rid : String) (d : IngestData) (fid cat : String)
    (huuid : uuidValidate rid = true) :
    (ingestionService.ingestTestRun st pid rid d fid cat =
        (.error (.appError .validation "status must be \"passed\" or \"failed\""), st))
      ↔ ¬ (d.status = "passed" ∨ d.status = "failed") := by
  constructor
  · intro h hs
    have hmem : d.status ∈ ["passed", "failed"] := by
      rcases hs with h1 | h1 <;> simp [h1]
    rw [ingestionService.ingestTestRun, ingestionService.ingestCore,
      if_neg (not_cond1_of_uuid huuid), if_neg (not_cond2_of_mem hmem)] at h
    by_cases h3 : d.duration_ms < 0 ∨ d.duration_ms.isInt = false
    · rw [if_pos h3] at h
      exact absurd ((Prod.mk.injEq _ _ _ _).mp h).1 (by decide)
    · rw [if_neg h3] at h
      by_cases h4 : d.timestamp = "" ∨ isValidISO8601 d.timestamp = false
      · rw [if_pos h4] at h
        exact absurd ((Prod.mk.injEq _ _ _ _).mp h).1 (by decide)
      · rw [if_neg h4] at h
        rcases hc : testRunDB.create st pid rid d.status d.duration_ms d.timestamp fid cat
          with ⟨ef, st2⟩
        rw [hc] at h
        cases ef with
        | ok r =>
            dsimp only at h
            exact Except.noConfusion ((Prod.mk.injEq _ _ _ _).mp h).1
        | error e =>
            obtain ⟨c, m, he⟩ := testRunDB_create_error_plain hc
            dsimp only at h
            by_cases hcode : (e.code == some "UNIQUE_VIOLATION") = true
            · rw [if_pos hcode] at h
              cases hf : testRunDB.findByRunId st pid rid with
              | some tr =>
                  rw [hf] at h
                  exact Except.noConfusion ((Prod.mk.injEq _ _ _ _).mp h).1
              | none =>
                  rw [hf] at h
                  exact absurd ((Prod.mk.injEq _ _ _ _).mp h).1 (by decide)
            · rw [if_neg hcode] at h
              have herr := Except.error.inj ((Prod.mk.injEq _ _ _ _).mp h).1
              rw [he] at herr
              exact JSErr.noConfusion herr
  · intro hs
    have h2 : d.status = "" ∨ ¬ d.status ∈ ["passed", "failed"] := by
      right
      intro hmem
      apply hs
      simpa using hmem
    rw [ingestionService.ingestTestRun, ingestionService.ingestCore,
      if_neg (not_cond1_of_uuid huuid), if_pos h2]

/-- Concrete instance of the amended C9: `"PASSED"` is rejected with the
status `ValidationError` by the amended characterization. -/
theorem c9_status_exact_no_trim_witness :
    ingestionService.ingestTestRun baseState "proj-1" sampleRunId
        ⟨"PASSED", 1234, sampleTimestamp⟩ "run-row-1" sampleCreatedAt =
      (.error (.appError .validation "status must be \"passed\" or \"failed\""),
       baseState) :=
  (c9_status_exact_no_trim baseState "proj-1" sampleRunId
    ⟨"PASSED", 1234, sampleTimestamp⟩ "run-row-1" sampleCreatedAt (by decide)).mpr
    (by decide)

/-- A fresh organization name (after trimming) is stored as the trimmed
name and returned as the trimmed name. -/
lemma orgService_create_ok
    {st : DBState} {name fid cat : String}
    (hname : jsTrim name ≠ "")
    (hpk : (st.organizations.any fun o => o.id == fid) = false)
    (hdupname : (st.organizations.any fun o => o.name == jsTrim name) = false) :
    orgService.createOrganization st name fid cat =
      (.ok ⟨fid, jsTrim name, cat⟩,
       { st with organizations := st.organizations ++ [⟨fid, jsTrim name, cat⟩] }) := by
  have hn1 : ¬ (name = "" ∨ jsTrim name = "") := by
    rintro (hc | hc)
    · exact hname (by rw [hc]; rfl)
    · exact hname hc
  have hdb : orgDB.create st (jsTrim name) fid cat =
      (.ok ⟨fid, jsTrim name, cat⟩,
       { st with organizations := st.organizations ++ [⟨fid, jsTrim name, cat⟩] }) := by
    dsimp only [orgDB.create, insertOrganization]
    rw [if_neg (by simp [hpk]), if_neg (by simp [hdupname])]
  rw [orgService.createOrganization, if_neg hn1, hdb]

/-- A duplicate organization name (after trimming) makes the service
propagate the raw sqlite unique-violation error unchanged. -/
lemma orgService_create_dup_raw
    {st : DBState} {name fid cat : String}
    (hname : jsTrim name ≠ "")
    (hpk : (st.organizations.any fun o => o.id == fid) = false)
    (hdupname : (st.organizations.any fun o => o.name == jsTrim name) = true) :
    orgService.createOrganization st name fid cat =
      (.error (.plainError (some "SQLITE_CONSTRAINT")
        "SQLITE_CONSTRAINT: UNIQUE constraint failed: organizations.name"), st) := by
  have hn1 : ¬ (name = "" ∨ jsTrim name = "") := by
    rintro (hc | hc)
    · exact hname (by rw [hc]; rfl)
    · exact hname hc
  have hdb : orgDB.create st (jsTrim name) fid cat =
      (.error (.plainError (some "SQLITE_CONSTRAINT")
        "SQLITE_CONSTRAINT: UNIQUE constraint failed: organizations.name"), st) := by
    dsimp only [orgDB.create, insertOrganization]
    rw [if_neg (by simp [hpk]), if_pos hdupname]
    rfl
  rw [orgService.createOrganization, if_neg hn1, hdb]
  dsimp only [JSErr.code]
  rw [if_neg (by decide)]

/-- A fresh project name (after trimming) under an existing organization
is stored and returned as the trimmed name. -/
lemma projectService_create_ok
    {st : DBState} {organizationId name fid cat : String} {org : Organization}
    (hname : jsTrim name ≠ "") (horgid : organizationId ≠ "")
    (horg : orgDB.findById st organizationId = some org)
    (hpk : (st.projects.any fun p => p.id == fid) = false)
    (hdupname : (st.projects.any fun p =>
      p.organization_id == organizationId && p.name == jsTrim name) = false) :
    projectService.createProject st organizationId name fid cat =
      (.ok ⟨fid, organizationId, jsTrim name, cat⟩,
       { st with projects := st.projects ++ [⟨fid, organizationId, jsTrim name, cat⟩] }) := by
  have hn1 : ¬ (name = "" ∨ jsTrim name = "") := by
    rintro (hc | hc)
    · exact hname (by rw [hc]; rfl)
    · exact hname hc
  have horg2 : st.organizations.find? (fun o => o.id == organizationId) = some org := horg
  have horgany : (st.organizations.any fun o => o.id == organizationId) = true := by
    rw [List.any_eq_true]
    refine ⟨org, List.mem_of_find?_eq_some horg2, ?_⟩
    have hp := List.find?_some horg2
    simpa using hp
  have hdb : projectDB.create st organizationId (jsTrim name) fid cat =
      (.ok ⟨fid, organizationId, jsTrim name, cat⟩,
       { st with projects := st.projects ++ [⟨fid, organizationId, jsTrim name, cat⟩] }) := by
    dsimp only [projectDB.create, insertProject]
    rw [if_neg (by simp [hpk]), if_neg (by simp [hdupname]), if_neg (by simp [horgany])]
  rw [projectService.createProject, if_neg hn1, if_neg horgid, horg, hdb]

/-- A duplicate `(organization_id, trimmed name)` project key makes the
service propagate the raw sqlite unique-violation error unchanged. -/
lemma projectService_create_dup_raw
    {st : DBState} {organizationId name fid cat : String} {org : Organization}
    (hname : jsTrim name ≠ "") (horgid : organizationId ≠ "")
    (horg : orgDB.findById st organizationId = some org)
    (hpk : (st.projects.any fun p => p.id == fid) = false)
    (hdupname : (st.projects.any fun p =>
      p.organization_id == organizationId && p.name == jsTrim name) = true) :
    projectService.createProject st organizationId name fid cat =
      (.error (.plainError (some "SQLITE_CONSTRAINT")
        "SQLITE_CONSTRAINT: UNIQUE constraint failed: projects.organization_id, projects.name"),
       st) := by
  have hn1 : ¬ (name = "" ∨ jsTrim name = "") := by
    rintro (hc | hc)
    · exact hname (by rw [hc]; rfl)
    · exact hname hc
  have hdb : projectDB.create st organizationId (jsTrim name) fid cat =
      (.error (.plainError (some "SQLITE_CONSTRAINT")
        "SQLITE_CONSTRAINT: UNIQUE constraint failed: projects.organization_id, projects.name"),
       st) := by
    dsimp only [projectDB.create, insertProject]
    rw [if_neg (by simp [hpk]), if_pos hdupname]
    dsimp only [JSErr.message, sqliteErr]
    rw [if_neg (by decide)]
  rw [projectService.createProject, if_neg hn1, if_neg horgid, horg, hdb]
  dsimp only [JSErr.code]
  rw [if_neg (by decide)]

/-- C10: `createOrganization` and `createProject` trim surrounding
whitespace from the supplied name before persisting — the stored and
returned name is the trimmed name — so two calls whose names differ only
in surrounding whitespace target the same stored name: the first succeeds
and the second collides on the same storage uniqueness constraint. -/
theorem c10_names_trimmed_and_collide :
    (∀ (st : DBState) (name fid cat : String),
      jsTrim name ≠ "" →
      (st.organizations.any fun o => o.id == fid) = false →
      (st.organizations.any fun o => o.name == jsTrim name) = false →
      orgService.createOrganization st name fid cat =
        (.ok ⟨fid, jsTrim name, cat⟩,
         { st with organizations := st.organizations ++ [⟨fid, jsTrim name, cat⟩] })) ∧
    (∀ (st : DBState) (organizationId name fid cat : String) (org : Organization),
      jsTrim name ≠ "" → organizationId ≠ "" →
      orgDB.findById st organizationId = some org →
      (st.projects.any fun p => p.id == fid) = false →
      (st.projects.any fun p =>
        p.organization_id == organizationId && p.name == jsTrim name) = false →
      projectService.createProject st organizationId name fid cat =
        (.ok ⟨fid, organizationId, jsTrim name, cat⟩,
         { st with projects := st.projects ++ [⟨fid, organizationId, jsTrim name, cat⟩] })) ∧
    (∀ (st : DBState) (n1 n2 fid1 fid2 cat1 cat2 : String),
      jsTrim n1 = jsTrim n2 → jsTrim n1 ≠ "" → fid1 ≠ fid2 →
      (st.organizations.any fun o => o.id == fid1) = false →
      (st.organizations.any fun o => o.id == fid2) = false →
      (st.organizations.any fun o => o.name == jsTrim n1) = false →
      orgService.createOrganization
        { st with organizations := st.organizations ++ [⟨fid1, jsTrim n1, cat1⟩] }
        n2 fid2 cat2 =
        (.error (.plainError (some "SQLITE_CONSTRAINT")
          "SQLITE_CONSTRAINT: UNIQUE constraint failed: organizations.name"),
         { st with organizations := st.organizations ++ [⟨fid1, jsTrim n1, cat1⟩] })) ∧
    (∀ (st : DBState) (organizationId n1 n2 fid1 fid2 cat1 cat2 : String) (org : Organization),
      jsTrim n1 = jsTrim n2 → jsTrim n1 ≠ "" → organizationId ≠ "" → fid1 ≠ fid2 →
      orgDB.findById st organizationId = some org →
      (st.projects.any fun p => p.id == fid1) = false →
      (st.projects.any fun p => p.id == fid2) = false →
      (st.projects.any fun p =>
        p.organization_id == organizationId && p.name == jsTrim n1) = false →
      projectService.createProject
        { st with projects := st.projects ++ [⟨fid1, organizationId, jsTrim n1, cat1⟩] }
        organizationId n2 fid2 cat2 =
        (.error (.plainError (some "SQLITE_CONSTRAINT")
          "SQLITE_CONSTRAINT: UNIQUE constraint failed: projects.organization_id, projects.name"),
         { st with projects := st.projects ++ [⟨fid1, organizationId, jsTrim n1, cat1⟩] })) := by
  refine ⟨fun st name fid cat hname hpk hdupname =>
      orgService_create_ok hname hpk hdupname,
    fun st organizationId name fid cat org hname horgid horg hpk hdupname =>
      projectService_create_ok hname horgid horg hpk hdupname,
    fun st n1 n2 fid1 fid2 cat1 cat2 htrim hne hfid hpk1 hpk2 hdupname => ?_,
    fun st organizationId n1 n2 fid1 fid2 cat1 cat2 org htrim hne horgid hfid horg
      hpk1 hpk2 hdupname => ?_⟩
  · have hname2 : jsTrim n2 ≠ "" := by rw [← htrim]; exact hne
    have hpk2b : (({ st with organizations := st.organizations ++
        [⟨fid1, jsTrim n1, cat1⟩] } : DBState).organizations.any
        fun o => o.id == fid2) = false := by
      dsimp only
      rw [List.any_append]
      simp [hpk2, beq_eq_false_iff_ne.mpr hfid]
    have hdup2 : (({ st with organizations := st.organizations ++
        [⟨fid1, jsTrim n1, cat1⟩] } : DBState).organizations.any
        fun o => o.name == jsTrim n2) = true := by
      dsimp only
      rw [List.any_append]
      simp [htrim]
    exact orgService_create_dup_raw hname2 hpk2b hdup2
  · have hname2 : jsTrim n2 ≠ "" := by rw [← htrim]; exact hne
    have horg2 : orgDB.findById
        ({ st with projects := st.projects ++ [⟨fid1, organizationId, jsTrim n1, cat1⟩] })
        organizationId = some org := horg
    have hpk2b : (({ st with projects := st.projects ++
        [⟨fid1, organizationId, jsTrim n1, cat1⟩] } : DBState).projects.any
        fun p => p.id == fid2) = false := by
      dsimp only
      rw [List.any_append]
      simp [hpk2, beq_eq_false_iff_ne.mpr hfid]
    have hdup2 : (({ st with projects := st.projects ++
        [⟨fid1, organizationId, jsTrim n1, cat1⟩] } : DBState).projects.any
        fun p => p.organization_id == organizationId && p.name == jsTrim n2) = true := by
      dsimp only
      rw [List.any_append]
      simp [htrim]
    exact projectService_create_dup_raw hname2 horgid horg2 hpk2b hdup2

/-- Concrete instance of C10: `"  Tenant  "` is stored as `Tenant` for
both an organization and a project; creating `"Tenant "` afterwards
collides with the stored trimmed name on the uniqueness constraint in
each case. -/
theorem c10_names_trimmed_and_collide_witness :
    orgService.createOrganization baseState "  Tenant  " "org-2" sampleCreatedAt =
      (.ok ⟨"org-2", "Tenant", sampleCreatedAt⟩,
       { baseState with organizations := baseState.organizations ++
          [⟨"org-2", "Tenant", sampleCreatedAt⟩] }) ∧
    projectService.createProject baseState "org-1" "  Portal  " "proj-3" sampleCreatedAt =
      (.ok ⟨"proj-3", "org-1", "Portal", sampleCreatedAt⟩,
       { baseState with projects := baseState.projects ++
          [⟨"proj-3", "org-1", "Portal", sampleCreatedAt⟩] }) ∧
    orgService.createOrganization
        { baseState with organizations := baseState.organizations ++
          [⟨"org-2", "Tenant", sampleCreatedAt⟩] } "Tenant " "org-3" sampleCreatedAt =
      (.error (.plainError (some "SQLITE_CONSTRAINT")
        "SQLITE_CONSTRAINT: UNIQUE constraint failed: organizations.name"),
       { baseState with organizations := baseState.organizations ++
          [⟨"org-2", "Tenant", sampleCreatedAt⟩] }) ∧
    projectService.createProject
        { baseState with projects := baseState.projects ++
          [⟨"proj-3", "org-1", "Portal", sampleCreatedAt⟩] } "org-1" "Portal " "proj-4"
        sampleCreatedAt =
      (.error (.plainError (some "SQLITE_CONSTRAINT")
        "SQLITE_CONSTRAINT: UNIQUE constraint failed: projects.organization_id, projects.name"),
       { baseState with projects := baseState.projects ++
          [⟨"proj-3", "org-1", "Portal", sampleCreatedAt⟩] }) := by
  refine ⟨?_, ?_, ?_, ?_⟩
  · have h := c10_names_trimmed_and_collide.1 baseState "  Tenant  " "org-2" sampleCreatedAt
      (by decide) (by decide) (by decide)
    exact h
  · have h := c10_names_trimmed_and_collide.2.1 baseState "org-1" "  Portal  " "proj-3"
      sampleCreatedAt sampleOrg (by decide) (by decide) (by decide) (by decide) (by decide)
    exact h
  · have h := c10_names_trimmed_and_collide.2.2.1 baseState "  Tenant  " "Tenant "
      "org-2" "org-3" sampleCreatedAt sampleCreatedAt
      (by decide) (by decide) (by decide) (by decide) (by decide) (by decide)
    exact h
  · have h := c10_names_trimmed_and_collide.2.2.2 baseState "org-1" "  Portal  " "Portal "
      "proj-3" "proj-4" sampleCreatedAt sampleCreatedAt sampleOrg
      (by decide) (by decide) (by decide) (by decide) (by decide) (by decide) (by decide)
      (by decide)
    exact h

end TestAnalytics
